import Mathlib

/-!
# ultradns: a REST client for a DNS hosting API

A shallow embedding of `src/main.go` (package `ultradns`).

* Go strings are Lean `String`s, Go `int` is `Int`, a Go slice is a `List`
  (the nil slice and the empty slice are both `[]`).
* A Go `error` is `Option String`: `none` is `nil`, `some msg` is
  `errors.New(msg)`; errors are compared by message.
* The pointer receiver `ud *UltraDns` becomes explicit state passing:
  `Authenticate` returns the session it leaves behind next to its error.
* The HTTP agent (`gorequest`) and `encoding/json` are libraries outside the
  package.  Every operation takes the outcome of `End()` as a function of the
  calls it made on the agent, and the behaviour of `json.Unmarshal` on its
  decode target, as parameters; the general theorems hold for all of them.
  Models of `json.Unmarshal`, `strconv`, `net/url` and of the request the
  agent makes of those calls (`MakeRequest`) follow the operations.
-/

namespace ultradns

/-! ## Constants -/

def UltraHost : String := "https://restapi.ultradns.com"

def AuthURL : String := UltraHost ++ "/v1/authorization/token"

/-! ## Data model -/

/-- Go's `error`: `none` is `nil`, `some msg` is `errors.New(msg)`. -/
abbrev error := Option String

structure VerInfo where
  Ver : String := ""
deriving DecidableEq, Repr

structure AccInfo where
  AccountName : String := ""
  AccountType : String := ""
  HolderUserName : String := ""
  OwnerUserName : String := ""
  NumUsers : String := ""
  NumGrps : String := ""
deriving DecidableEq, Repr

structure QueryInfo where
  QSort : String := ""
  Reverse : Bool := false
  Limit : Int := 0
deriving DecidableEq, Repr

structure ResultInfo where
  Total : Int := 0
  OffSet : Int := 0
  RetCount : Int := 0
deriving DecidableEq, Repr

structure ZoneProp where
  ZName : String := ""
  AccName : String := ""
  AccType : String := ""
  DNSSecStatus : String := ""
  Status : String := ""
  Owner : String := ""
  RRCount : Int := 0
  LastUpdated : String := ""
deriving DecidableEq, Repr

/-- The anonymous struct of `RegistrarInfo.NameServers`. -/
structure NameServers where
  Ok : List String := []
  Unknown : List String := []
  Missing : List String := []
  InCorrect : List String := []
deriving DecidableEq, Repr

structure RegistrarInfo where
  Registrar : String := ""
  WhoIsExpires : String := ""
  NameServers : NameServers := {}
deriving DecidableEq, Repr

/-- The anonymous element struct of `Zone.RestrictIps`. -/
structure RestrictIp where
  SingleIP : String := ""
  StartIP : String := ""
  EndIP : String := ""
deriving DecidableEq, Repr

structure Zone where
  Property : ZoneProp := {}
  RegInfo : RegistrarInfo := {}
  RestrictIps : List RestrictIp := []
deriving DecidableEq, Repr

structure RRSet where
  RecName : String := ""
  RType : String := ""
  TTL : Int := 0
  RRecords : List String := []
deriving DecidableEq, Repr

structure AuthResp where
  TokenType : String := ""
  RefreshToken : String := ""
  AccessToken : String := ""
  Expires : String := ""
  tokenType : String := ""
  refreshToken : String := ""
  accessToken : String := ""
  expires : String := ""
deriving DecidableEq, Repr

/-- The session.  The `Client` field of the Go struct is the HTTP agent; its
behaviour is the `End` parameter of the operations below. -/
structure UltraDns where
  userName : String
  password : String
  accessToken : String
  refreshToken : String
  tokenHeader : String
deriving DecidableEq, Repr

/-- The decode target `Res` of `GetAccountDetails`. -/
structure AccountsRes where
  RInfo : ResultInfo := {}
  Accounts : List AccInfo := []
deriving DecidableEq, Repr

/-- The decode target `Res` of `GetAllZones`. -/
structure ZonesRes where
  QInfo : QueryInfo := {}
  RInfo : ResultInfo := {}
  Zones : List Zone := []
deriving DecidableEq, Repr

/-- The decode target `Res` of `GetRRsets`. -/
structure RRsetsRes where
  ZName : String := ""
  QInfo : QueryInfo := {}
  RInfo : ResultInfo := {}
  RRSets : List RRSet := []
deriving DecidableEq, Repr

/-! ## The HTTP agent, as far as the package drives it -/

/-- The calls an operation makes on the agent before `End()`: the method and
URL of `Get`/`Post`, the strings handed to `Query`, the headers of `Set` and
the strings handed to `Send`, each in call order.  `MakeRequest` below is
the HTTP request the agent makes of them. -/
structure Request where
  Method : String
  Url : String
  QueryData : List String := []
  Header : List (String × String) := []
  Data : List String := []
deriving DecidableEq, Repr

def Post (targetUrl : String) : Request := { Method := "POST", Url := targetUrl }

def Get (targetUrl : String) : Request := { Method := "GET", Url := targetUrl }

def Request.Send (s : Request) (content : String) : Request :=
  { s with Data := s.Data ++ [content] }

def Request.Query (s : Request) (content : String) : Request :=
  { s with QueryData := s.QueryData ++ [content] }

def Request.Set (s : Request) (param value : String) : Request :=
  { s with Header := s.Header ++ [(param, value)] }

structure Response where
  StatusCode : Int
deriving DecidableEq, Repr

/-- What `End()` returns: the response, its body and the agent's errors
(`errs = []` is Go's `err == nil`). -/
structure EndResult where
  resp : Response
  body : String
  errs : List String
deriving DecidableEq, Repr

/-- The behaviour of `json.Unmarshal([]byte(body), &v)` on a target of type
`α`: from the body and the target's value before the call to the target's
value after it and the error returned. -/
abbrev Unmarshal (α : Type) := String → α → α × error

/-! ## Operations -/

def NewSession : UltraDns :=
  { userName := ""
    password := ""
    accessToken := ""
    refreshToken := ""
    tokenHeader := "" }

/-- The calls `Authenticate` makes on the agent. -/
def AuthenticateRequest (username password : String) : Request :=
  let payLoad := "grant_type=password&username=" ++ username ++ "&password=" ++ password
  (Post AuthURL).Send payLoad

/-- Get and set the authentication tokens.  Returns the error and the
session after the call. -/
def Authenticate (End : Request → EndResult) (unmarshal : Unmarshal AuthResp)
    (ud : UltraDns) (username password : String) : error × UltraDns :=
  let authResp : AuthResp := {}
  let r := End (AuthenticateRequest username password)
  if r.errs ≠ [] then
    (some "Authentication Failed", ud)
  else if r.resp.StatusCode ≠ 200 then
    (some "Something Bad Happened", ud)
  else
    let (authResp, er) := unmarshal r.body authResp
    if er ≠ none then
      (some "Unmarshal Error", ud)
    else
      let ud := { ud with accessToken := authResp.AccessToken }
      let ud := { ud with refreshToken := authResp.RefreshToken }
      let ud := { ud with tokenHeader := "Bearer " ++ ud.accessToken }
      (none, ud)

def GetVersionRequest : Request :=
  Get (UltraHost ++ "/v1/version")

/-- Get version. -/
def GetVersion (End : Request → EndResult) (unmarshal : Unmarshal VerInfo)
    (_ud : UltraDns) : VerInfo × error :=
  let VInfo : VerInfo := {}
  let r := End GetVersionRequest
  if r.errs ≠ [] then
    (VInfo, some "Authentication Failed")
  else
    let (VInfo, errr) := unmarshal r.body VInfo
    if errr ≠ none then
      (VInfo, some "Unmarshal Error")
    else
      (VInfo, none)

def GetAccountDetailsRequest (ud : UltraDns) : Request :=
  (Get (UltraHost ++ "/v1/accounts")).Set "Authorization" ud.tokenHeader

/-- Get account details for user. -/
def GetAccountDetails (End : Request → EndResult) (unmarshal : Unmarshal AccountsRes)
    (ud : UltraDns) : List AccInfo × error :=
  let Res : AccountsRes := {}
  let r := End (GetAccountDetailsRequest ud)
  if r.errs ≠ [] then
    (Res.Accounts, some "Authentication Failed")
  else
    let (Res, errr) := unmarshal r.body Res
    if errr ≠ none then
      (Res.Accounts, some "Unmarshal Error")
    else
      (Res.Accounts, none)

def GetAllZonesRequest (ud : UltraDns) : Request :=
  (Get (UltraHost ++ "/v1/zones")).Set "Authorization" ud.tokenHeader

/-- List all zones for the account. -/
def GetAllZones (End : Request → EndResult) (unmarshal : Unmarshal ZonesRes)
    (ud : UltraDns) : List Zone × error :=
  let Res : ZonesRes := {}
  let r := End (GetAllZonesRequest ud)
  if r.errs ≠ [] then
    (Res.Zones, some "Authentication Failed")
  else
    let (Res, errr) := unmarshal r.body Res
    if errr ≠ none then
      (Res.Zones, some "Unmarshal Error")
    else
      (Res.Zones, none)

/-- Go's `strconv.Itoa`: the decimal rendering, with a leading `-` for a
negative number. -/
def Itoa (i : Int) : String :=
  if i < 0 then "-" ++ Nat.repr i.natAbs else Nat.repr i.natAbs

def GetRRsetsRequest (ud : UltraDns) (zName : String) (offset limit : Int) : Request :=
  (((Get (UltraHost ++ "/v1/zones/" ++ zName ++ "/rrsets")).Query
    ("offset=" ++ Itoa offset)).Query
    ("&limit=" ++ Itoa limit)).Set "Authorization" ud.tokenHeader

/-- Get all resource record sets. -/
def GetRRsets (End : Request → EndResult) (unmarshal : Unmarshal RRsetsRes)
    (ud : UltraDns) (zName : String) (offset limit : Int) :
    List RRSet × ResultInfo × error :=
  let Res : RRsetsRes := {}
  let r := End (GetRRsetsRequest ud zName offset limit)
  if r.errs ≠ [] then
    (Res.RRSets, Res.RInfo, some "Authentication Failed")
  else
    let (Res, errr) := unmarshal r.body Res
    if errr ≠ none then
      (Res.RRSets, Res.RInfo, some "Unmarshal Error")
    else
      (Res.RRSets, Res.RInfo, none)

/-! ## encoding/json, for the decode targets of the package

A model of Go's `json.Unmarshal` on the struct types above: the input is
checked for validity as a whole first (a syntax error leaves the target
untouched); then the value is stored into the target field by field, a value
of the wrong JSON type for its field is skipped, the earliest such error is
remembered and decoding goes on.  Object keys are matched to the `json` tags
exactly, else ignoring case; unknown keys are skipped; unexported fields are
never set.  Error messages are abbreviated (the package only tests an error
against `nil`). -/

/-- A JSON text, parsed. -/
inductive JSON where
  | null
  | bool (b : Bool)
  | number (lit : List Char)
  | string (s : List Char)
  | array (elems : List JSON)
  | object (members : List (List Char × JSON))

def isSpace (c : Char) : Bool :=
  c = ' ' || c = '\t' || c = '\r' || c = '\n'

def skipSpace : List Char → List Char
  | [] => []
  | c :: cs => if isSpace c then skipSpace cs else c :: cs

def hexVal (c : Char) : Option Nat :=
  if '0' ≤ c ∧ c ≤ '9' then some (c.toNat - '0'.toNat)
  else if 'a' ≤ c ∧ c ≤ 'f' then some (c.toNat - 'a'.toNat + 10)
  else if 'A' ≤ c ∧ c ≤ 'F' then some (c.toNat - 'A'.toNat + 10)
  else none

def getu4 (a b c d : Char) : Option Nat :=
  match hexVal a, hexVal b, hexVal c, hexVal d with
  | some x, some y, some z, some w => some (((x * 16 + y) * 16 + z) * 16 + w)
  | _, _, _, _ => none

def scanString : Nat → List Char → Option (List Char × List Char)
  | 0, _ => none
  | _ + 1, [] => none
  | _ + 1, '"' :: rest => some ([], rest)
  | f + 1, '\\' :: 'u' :: a :: b :: c :: d :: rest =>
    match getu4 a b c d with
    | none => none
    | some rr =>
      if 0xD800 ≤ rr ∧ rr < 0xE000 then
        match rest with
        | '\\' :: 'u' :: a1 :: b1 :: c1 :: d1 :: rest1 =>
          match getu4 a1 b1 c1 d1 with
          | none => none
          | some rr1 =>
            if rr < 0xDC00 ∧ 0xDC00 ≤ rr1 ∧ rr1 < 0xE000 then
              (scanString f rest1).map fun (s, r) =>
                (Char.ofNat ((rr - 0xD800) * 0x400 + (rr1 - 0xDC00) + 0x10000) :: s, r)
            else
              (scanString f rest).map fun (s, r) => (Char.ofNat 0xFFFD :: s, r)
        | _ => (scanString f rest).map fun (s, r) => (Char.ofNat 0xFFFD :: s, r)
      else
        (scanString f rest).map fun (s, r) => (Char.ofNat rr :: s, r)
  | f + 1, '\\' :: e :: rest =>
    let put (c : Char) := (scanString f rest).map fun (s, r) => (c :: s, r)
    if e = '"' then put '"'
    else if e = '\\' then put '\\'
    else if e = '/' then put '/'
    else if e = 'b' then put (Char.ofNat 8)
    else if e = 'f' then put (Char.ofNat 12)
    else if e = 'n' then put '\n'
    else if e = 'r' then put '\r'
    else if e = 't' then put '\t'
    else none
  | f + 1, c :: rest =>
    if c.toNat < 0x20 ∨ c = '\\' then none
    else (scanString f rest).map fun (s, r) => (c :: s, r)

def spanDigits : List Char → List Char × List Char
  | [] => ([], [])
  | c :: cs =>
    if c.isDigit then
      let (ds, rest) := spanDigits cs
      (c :: ds, rest)
    else ([], c :: cs)

def scanNumber (cs : List Char) : Option (List Char × List Char) :=
  let (sign, cs1) := match cs with
    | '-' :: r => (['-'], r)
    | r => ([], r)
  let intPart : Option (List Char × List Char) := match cs1 with
    | '0' :: r => some (['0'], r)
    | r => let (ds, r1) := spanDigits r; if ds = [] then none else some (ds, r1)
  match intPart with
  | none => none
  | some (ip, cs2) =>
    let frac : Option (List Char × List Char) := match cs2 with
      | '.' :: r => let (ds, r1) := spanDigits r; if ds = [] then none else some ('.' :: ds, r1)
      | r => some ([], r)
    match frac with
    | none => none
    | some (fp, cs3) =>
      let exp : Option (List Char × List Char) := match cs3 with
        | 'e' :: '+' :: r => let (ds, r1) := spanDigits r; if ds = [] then none else some ('e' :: '+' :: ds, r1)
        | 'e' :: '-' :: r => let (ds, r1) := spanDigits r; if ds = [] then none else some ('e' :: '-' :: ds, r1)
        | 'e' :: r => let (ds, r1) := spanDigits r; if ds = [] then none else some ('e' :: ds, r1)
        | 'E' :: '+' :: r => let (ds, r1) := spanDigits r; if ds = [] then none else some ('E' :: '+' :: ds, r1)
        | 'E' :: '-' :: r => let (ds, r1) := spanDigits r; if ds = [] then none else some ('E' :: '-' :: ds, r1)
        | 'E' :: r => let (ds, r1) := spanDigits r; if ds = [] then none else some ('E' :: ds, r1)
        | r => some ([], r)
      match exp with
      | none => none
      | some (ep, cs4) => some (sign ++ ip ++ fp ++ ep, cs4)

mutual
def scanValue : Nat → Nat → List Char → Option (JSON × List Char)
  | 0, _, _ => none
  | f + 1, depth, cs =>
    match skipSpace cs with
    | '{' :: rest =>
      if 10000 ≤ depth then none
      else
        match skipSpace rest with
        | '}' :: rest1 => some (.object [], rest1)
        | rest1 => (scanMembers f (depth + 1) rest1).map fun (ms, r) => (.object ms, r)
    | '[' :: rest =>
      if 10000 ≤ depth then none
      else
        match skipSpace rest with
        | ']' :: rest1 => some (.array [], rest1)
        | rest1 => (scanElems f (depth + 1) rest1).map fun (es, r) => (.array es, r)
    | '"' :: rest => (scanString (f + 1) rest).map fun (s, r) => (.string s, r)
    | 't' :: 'r' :: 'u' :: 'e' :: rest => some (.bool true, rest)
    | 'f' :: 'a' :: 'l' :: 's' :: 'e' :: rest => some (.bool false, rest)
    | 'n' :: 'u' :: 'l' :: 'l' :: rest => some (.null, rest)
    | rest => (scanNumber rest).map fun (n, r) => (.number n, r)
def scanMembers : Nat → Nat → List Char → Option (List (List Char × JSON) × List Char)
  | 0, _, _ => none
  | f + 1, depth, cs =>
    match skipSpace cs with
    | '"' :: rest =>
      match scanString (f + 1) rest with
      | none => none
      | some (key, rest1) =>
        match skipSpace rest1 with
        | ':' :: rest2 =>
          match scanValue f depth rest2 with
          | none => none
          | some (v, rest3) =>
            match skipSpace rest3 with
            | ',' :: rest4 =>
              (scanMembers f depth rest4).map fun (ms, r) => ((key, v) :: ms, r)
            | '}' :: rest4 => some ([(key, v)], rest4)
            | _ => none
        | _ => none
    | _ => none
def scanElems : Nat → Nat → List Char → Option (List JSON × List Char)
  | 0, _, _ => none
  | f + 1, depth, cs =>
    match scanValue f depth cs with
    | none => none
    | some (v, rest) =>
      match skipSpace rest with
      | ',' :: rest1 => (scanElems f depth rest1).map fun (es, r) => (v :: es, r)
      | ']' :: rest1 => some ([v], rest1)
      | _ => none
end

/-- The value a JSON text denotes, or `none` when the text is not valid JSON
or nests objects and arrays more than 10000 deep (the fuel given outlasts
every input: a step that uses fuel without reading a character is followed
by one that reads). -/
def checkValid (data : String) : Option JSON :=
  match scanValue (2 * data.length + 2) 0 data.data with
  | some (j, rest) => if skipSpace rest = [] then some j else none
  | none => none

/-- The value of a string of decimal digits. -/
def decimalValue (ds : List Char) : Nat :=
  ds.foldl (fun acc c => acc * 10 + (c.toNat - '0'.toNat)) 0

/-- The sign in front of a number, and the rest. -/
def splitSign : List Char → Bool × List Char
  | '-' :: r => (true, r)
  | '+' :: r => (false, r)
  | r => (false, r)

/-- Go's `strconv.ParseInt(s, 10, 64)`: an optional sign and decimal digits,
within the range of a 64-bit integer. -/
def parseInt64 (s : List Char) : Option Int :=
  let (neg, ds) := splitSign s
  if ds = [] ∨ ds.all Char.isDigit = false then none
  else
    let n := decimalValue ds
    if neg then
      if n ≤ 2 ^ 63 then some (-(n : Int)) else none
    else
      if n < 2 ^ 63 then some (n : Int) else none

/-- The `UnmarshalTypeError` for a JSON value that does not fit a Go type. -/
def typeError (value ty : String) : error :=
  some ("json: cannot unmarshal " ++ value ++ " into Go value of type " ++ ty)

/-- The earliest error is the one `Unmarshal` returns. -/
def saveError (saved e : error) : error :=
  match saved with
  | some m => some m
  | none => e

def storeString (j : JSON) (v : String) : String × error :=
  match j with
  | .null => (v, none)
  | .string s => (String.mk s, none)
  | .bool _ => (v, typeError "bool" "string")
  | .number lit => (v, typeError ("number " ++ String.mk lit) "string")
  | .array _ => (v, typeError "array" "string")
  | .object _ => (v, typeError "object" "string")

def storeInt (j : JSON) (v : Int) : Int × error :=
  match j with
  | .null => (v, none)
  | .number lit =>
    match parseInt64 lit with
    | some n => (n, none)
    | none => (v, typeError ("number " ++ String.mk lit) "int")
  | .bool _ => (v, typeError "bool" "int")
  | .string _ => (v, typeError "string" "int")
  | .array _ => (v, typeError "array" "int")
  | .object _ => (v, typeError "object" "int")

def storeBool (j : JSON) (v : Bool) : Bool × error :=
  match j with
  | .null => (v, none)
  | .bool b => (b, none)
  | .number lit => (v, typeError ("number " ++ String.mk lit) "bool")
  | .string _ => (v, typeError "string" "bool")
  | .array _ => (v, typeError "array" "bool")
  | .object _ => (v, typeError "object" "bool")

/-- The elements of a JSON array stored into a slice: element `i` is decoded
into the slice's element `i` when it has one, else into a zero element. -/
def storeElems {α : Type} (zero : α) (elem : JSON → α → α × error) :
    List JSON → List α → List α × error
  | [], _ => ([], none)
  | j :: js, old =>
    let (x, e) := elem j (old.headD zero)
    let (xs, es) := storeElems zero elem js old.tail
    (x :: xs, saveError e es)

def storeSlice {α : Type} (ty : String) (zero : α) (elem : JSON → α → α × error)
    (j : JSON) (v : List α) : List α × error :=
  match j with
  | .null => ([], none)
  | .array js => storeElems zero elem js v
  | .bool _ => (v, typeError "bool" ty)
  | .number lit => (v, typeError ("number " ++ String.mk lit) ty)
  | .string _ => (v, typeError "string" ty)
  | .object _ => (v, typeError "object" ty)

/-- Case folding of an object key against ASCII field names. -/
def foldChar (c : Char) : Char :=
  if 'A' ≤ c ∧ c ≤ 'Z' then Char.ofNat (c.toNat + 32)
  else if c = Char.ofNat 0x212A then 'k'
  else if c = Char.ofNat 0x17F then 's'
  else c

/-- The field an object key selects: the one whose name is the key, else
the first whose name equals it ignoring case. -/
def findField {β : Type} (fields : List (String × β)) (key : List Char) : Option β :=
  match fields.find? (fun f => decide (f.1.data = key)) with
  | some f => some f.2
  | none =>
    match fields.find? (fun f => decide (f.1.data.map foldChar = key.map foldChar)) with
    | some f => some f.2
    | none => none

def storeMembers {σ : Type} (fields : List (String × (JSON → σ → σ × error))) :
    List (List Char × JSON) → σ × error → σ × error
  | [], acc => acc
  | (key, j) :: ms, (v, saved) =>
    match findField fields key with
    | none => storeMembers fields ms (v, saved)
    | some f =>
      let (v1, e) := f j v
      storeMembers fields ms (v1, saveError saved e)

def storeStruct {σ : Type} (ty : String) (fields : List (String × (JSON → σ → σ × error)))
    (j : JSON) (v : σ) : σ × error :=
  match j with
  | .null => (v, none)
  | .object ms => storeMembers fields ms (v, none)
  | .bool _ => (v, typeError "bool" ty)
  | .number lit => (v, typeError ("number " ++ String.mk lit) ty)
  | .string _ => (v, typeError "string" ty)
  | .array _ => (v, typeError "array" ty)

/-- A struct field with its tag: how a value is stored into it. -/
def field {σ α : Type} (tag : String) (get : σ → α) (set : σ → α → σ)
    (store : JSON → α → α × error) : String × (JSON → σ → σ × error) :=
  (tag, fun j s => let (a, e) := store j (get s); (set s a, e))

def storeVerInfo : JSON → VerInfo → VerInfo × error :=
  storeStruct "ultradns.VerInfo"
    [field "version" (·.Ver) (fun s a => { s with Ver := a }) storeString]

def storeAccInfo : JSON → AccInfo → AccInfo × error :=
  storeStruct "ultradns.AccInfo"
    [field "accountName" (·.AccountName) (fun s a => { s with AccountName := a }) storeString,
     field "accountType" (·.AccountType) (fun s a => { s with AccountType := a }) storeString,
     field "accountHolderUserName" (·.HolderUserName)
       (fun s a => { s with HolderUserName := a }) storeString,
     field "accountOwnerUserName" (·.OwnerUserName)
       (fun s a => { s with OwnerUserName := a }) storeString,
     field "numberOfUsers" (·.NumUsers) (fun s a => { s with NumUsers := a }) storeString,
     field "numberOfGroups" (·.NumGrps) (fun s a => { s with NumGrps := a }) storeString]

def storeQueryInfo : JSON → QueryInfo → QueryInfo × error :=
  storeStruct "ultradns.QueryInfo"
    [field "sort" (·.QSort) (fun s a => { s with QSort := a }) storeString,
     field "reverse" (·.Reverse) (fun s a => { s with Reverse := a }) storeBool,
     field "limit" (·.Limit) (fun s a => { s with Limit := a }) storeInt]

def storeResultInfo : JSON → ResultInfo → ResultInfo × error :=
  storeStruct "ultradns.ResultInfo"
    [field "totalCount" (·.Total) (fun s a => { s with Total := a }) storeInt,
     field "offset" (·.OffSet) (fun s a => { s with OffSet := a }) storeInt,
     field "returnedCount" (·.RetCount) (fun s a => { s with RetCount := a }) storeInt]

def storeZoneProp : JSON → ZoneProp → ZoneProp × error :=
  storeStruct "ultradns.ZoneProp"
    [field "name" (·.ZName) (fun s a => { s with ZName := a }) storeString,
     field "accountName" (·.AccName) (fun s a => { s with AccName := a }) storeString,
     field "type" (·.AccType) (fun s a => { s with AccType := a }) storeString,
     field "dnssecStatus" (·.DNSSecStatus) (fun s a => { s with DNSSecStatus := a }) storeString,
     field "status" (·.Status) (fun s a => { s with Status := a }) storeString,
     field "owner" (·.Owner) (fun s a => { s with Owner := a }) storeString,
     field "resourceRecordCount" (·.RRCount) (fun s a => { s with RRCount := a }) storeInt,
     field "lastModifiedDateTime" (·.LastUpdated)
       (fun s a => { s with LastUpdated := a }) storeString]

def storeStrings : JSON → List String → List String × error :=
  storeSlice "[]string" "" storeString

def storeNameServers : JSON → NameServers → NameServers × error :=
  storeStruct "struct"
    [field "ok" (·.Ok) (fun s a => { s with Ok := a }) storeStrings,
     field "unknown" (·.Unknown) (fun s a => { s with Unknown := a }) storeStrings,
     field "missing" (·.Missing) (fun s a => { s with Missing := a }) storeStrings,
     field "incorrect" (·.InCorrect) (fun s a => { s with InCorrect := a }) storeStrings]

def storeRegistrarInfo : JSON → RegistrarInfo → RegistrarInfo × error :=
  storeStruct "ultradns.RegistrarInfo"
    [field "registrar" (·.Registrar) (fun s a => { s with Registrar := a }) storeString,
     field "whoisExpiration" (·.WhoIsExpires) (fun s a => { s with WhoIsExpires := a }) storeString,
     field "nameServers" (·.NameServers) (fun s a => { s with NameServers := a })
       storeNameServers]

def storeRestrictIp : JSON → RestrictIp → RestrictIp × error :=
  storeStruct "struct"
    [field "singleIP" (·.SingleIP) (fun s a => { s with SingleIP := a }) storeString,
     field "startIP" (·.StartIP) (fun s a => { s with StartIP := a }) storeString,
     field "EndIP" (·.EndIP) (fun s a => { s with EndIP := a }) storeString]

def storeZone : JSON → Zone → Zone × error :=
  storeStruct "ultradns.Zone"
    [field "properties" (·.Property) (fun s a => { s with Property := a }) storeZoneProp,
     field "registrarInfo" (·.RegInfo) (fun s a => { s with RegInfo := a }) storeRegistrarInfo,
     field "restrictIpList" (·.RestrictIps) (fun s a => { s with RestrictIps := a })
       (storeSlice "[]struct" {} storeRestrictIp)]

def storeRRSet : JSON → RRSet → RRSet × error :=
  storeStruct "ultradns.RRSet"
    [field "ownerName" (·.RecName) (fun s a => { s with RecName := a }) storeString,
     field "rrtype" (·.RType) (fun s a => { s with RType := a }) storeString,
     field "ttl" (·.TTL) (fun s a => { s with TTL := a }) storeInt,
     field "rdata" (·.RRecords) (fun s a => { s with RRecords := a }) storeStrings]

/-- Only the exported fields of `AuthResp` are visible to the decoder. -/
def storeAuthResp : JSON → AuthResp → AuthResp × error :=
  storeStruct "ultradns.AuthResp"
    [field "tokenType" (·.TokenType) (fun s a => { s with TokenType := a }) storeString,
     field "refreshToken" (·.RefreshToken) (fun s a => { s with RefreshToken := a }) storeString,
     field "accessToken" (·.AccessToken) (fun s a => { s with AccessToken := a }) storeString,
     field "expiresIn" (·.Expires) (fun s a => { s with Expires := a }) storeString]

def storeAccountsRes : JSON → AccountsRes → AccountsRes × error :=
  storeStruct "struct"
    [field "resultInfo" (·.RInfo) (fun s a => { s with RInfo := a }) storeResultInfo,
     field "accounts" (·.Accounts) (fun s a => { s with Accounts := a })
       (storeSlice "[]ultradns.AccInfo" {} storeAccInfo)]

def storeZonesRes : JSON → ZonesRes → ZonesRes × error :=
  storeStruct "struct"
    [field "queryInfo" (·.QInfo) (fun s a => { s with QInfo := a }) storeQueryInfo,
     field "resultInfo" (·.RInfo) (fun s a => { s with RInfo := a }) storeResultInfo,
     field "zones" (·.Zones) (fun s a => { s with Zones := a })
       (storeSlice "[]ultradns.Zone" {} storeZone)]

def storeRRsetsRes : JSON → RRsetsRes → RRsetsRes × error :=
  storeStruct "struct"
    [field "zoneName" (·.ZName) (fun s a => { s with ZName := a }) storeString,
     field "queryInfo" (·.QInfo) (fun s a => { s with QInfo := a }) storeQueryInfo,
     field "resultInfo" (·.RInfo) (fun s a => { s with RInfo := a }) storeResultInfo,
     field "rrSets" (·.RRSets) (fun s a => { s with RRSets := a })
       (storeSlice "[]ultradns.RRSet" {} storeRRSet)]

/-- Go's `json.Unmarshal` for a target whose type stores values with `store`. -/
def jsonUnmarshal {α : Type} (store : JSON → α → α × error) : Unmarshal α :=
  fun body v =>
    match checkValid body with
    | none => (v, some "json: syntax error")
    | some j => store j v

/-! ## Byte strings

Go strings are byte strings.  Where `net/url` and the agent take a string
apart byte by byte, a string is the list of its bytes: `utf8 s` for the Lean
string `s`. -/

/-- A Go string as its bytes. -/
abbrev Bytes := List Nat

/-- The UTF-8 encoding of a character. -/
def utf8EncodeChar (c : Char) : Bytes :=
  if c.toNat < 0x80 then [c.toNat]
  else if c.toNat < 0x800 then [0xC0 + c.toNat / 0x40, 0x80 + c.toNat % 0x40]
  else if c.toNat < 0x10000 then
    [0xE0 + c.toNat / 0x1000, 0x80 + c.toNat / 0x40 % 0x40, 0x80 + c.toNat % 0x40]
  else
    [0xF0 + c.toNat / 0x40000, 0x80 + c.toNat / 0x1000 % 0x40, 0x80 + c.toNat / 0x40 % 0x40,
      0x80 + c.toNat % 0x40]

/-- Go's `[]byte(s)`: the bytes of a string. -/
def utf8 (s : String) : Bytes :=
  s.data.flatMap utf8EncodeChar

/-- Go's `strings.Cut(s, sep)` for a one-byte separator: the text before and
after the first `sep` (all of `s` and nothing when there is none). -/
def cut (sep : Nat) : Bytes → Bytes × Bytes
  | [] => ([], [])
  | c :: cs =>
    if c = sep then ([], cs)
    else
      let (before, after) := cut sep cs
      (c :: before, after)

/-! ## net/url

A model of the parts of Go's `net/url` the agent uses: `ParseQuery` and
`Values.Encode` for query strings and form bodies, and `Parse` for URLs of
the form `scheme://host/path?query#fragment` with a plain host name. -/

/-- The outcome of a library call: a value, an error, or `beyond` for an
input outside the part of the library that is modelled. -/
inductive Outcome (α : Type) where
  | ok (a : α)
  | err (msg : String)
  | beyond
deriving DecidableEq, Repr

def ishex (c : Nat) : Bool :=
  ('0'.toNat ≤ c && c ≤ '9'.toNat) || ('a'.toNat ≤ c && c ≤ 'f'.toNat) ||
    ('A'.toNat ≤ c && c ≤ 'F'.toNat)

def unhex (c : Nat) : Nat :=
  if '0'.toNat ≤ c ∧ c ≤ '9'.toNat then c - '0'.toNat
  else if 'a'.toNat ≤ c ∧ c ≤ 'f'.toNat then c - 'a'.toNat + 10
  else if 'A'.toNat ≤ c ∧ c ≤ 'F'.toNat then c - 'A'.toNat + 10
  else 0

/-- Go's `unescape`: `%XX` is the byte `XX`, and in a query component (`plus`)
`+` is a space; a `%` not followed by two hex digits is an error (`none`). -/
def unescape (plus : Bool) : Bytes → Option Bytes
  | [] => some []
  | c :: rest =>
    if c = '%'.toNat then
      match rest with
      | a :: b :: rest2 =>
        if ishex a && ishex b then
          (unescape plus rest2).map fun s => (unhex a * 16 + unhex b) :: s
        else none
      | _ => none
    else if plus && c = '+'.toNat then (unescape plus rest).map fun s => ' '.toNat :: s
    else (unescape plus rest).map fun s => c :: s

/-- Go's `url.QueryUnescape`. -/
def QueryUnescape (s : Bytes) : Option Bytes :=
  unescape true s

/-- Go's `shouldEscape` for a query component: every byte but the letters,
the digits and `-`, `_`, `.`, `~`. -/
def shouldEscape (c : Nat) : Bool :=
  !(('a'.toNat ≤ c && c ≤ 'z'.toNat) || ('A'.toNat ≤ c && c ≤ 'Z'.toNat) ||
    ('0'.toNat ≤ c && c ≤ '9'.toNat) || c = '-'.toNat || c = '_'.toNat || c = '.'.toNat ||
    c = '~'.toNat)

/-- The digit of `0123456789ABCDEF` at an index. -/
def upperhex (n : Nat) : Nat :=
  if n < 10 then '0'.toNat + n else 'A'.toNat + (n - 10)

/-- Go's `url.QueryEscape`: a space becomes `+`, any other byte that should be
escaped becomes `%XX`. -/
def QueryEscape : Bytes → Bytes
  | [] => []
  | c :: cs =>
    if shouldEscape c then
      if c = ' '.toNat then '+'.toNat :: QueryEscape cs
      else '%'.toNat :: upperhex (c / 16) :: upperhex (c % 16) :: QueryEscape cs
    else c :: QueryEscape cs

/-- Go's order on strings: byte by byte. -/
def bytesLt : Bytes → Bytes → Bool
  | [], [] => false
  | [], _ :: _ => true
  | _ :: _, [] => false
  | a :: as, b :: bs => if a < b then true else if b < a then false else bytesLt as bs

/-- Go's `url.Values`, a map from keys to lists of values, kept in the order
of its keys (the order `Encode` writes them in). -/
abbrev Values := List (Bytes × List Bytes)

/-- Go's `Values.Add`: the value goes after the values the key already has. -/
def Values.Add : Values → Bytes → Bytes → Values
  | [], key, value => [(key, [value])]
  | (k, vs) :: rest, key, value =>
    if key = k then (k, vs ++ [value]) :: rest
    else if bytesLt key k then (key, [value]) :: (k, vs) :: rest
    else (k, vs) :: Values.Add rest key value

/-- The `key=value` pairs of a map, in key order. -/
def Values.pairs (v : Values) : List (Bytes × Bytes) :=
  v.flatMap fun kvs => kvs.2.map fun value => (kvs.1, value)

/-- Pieces joined by `&`. -/
def joinAmp : List Bytes → Bytes
  | [] => []
  | [x] => x
  | x :: y :: rest => x ++ '&'.toNat :: joinAmp (y :: rest)

/-- Go's `Values.Encode`: `key=value` pairs, escaped, joined by `&`, sorted by
key. -/
def Values.Encode (v : Values) : Bytes :=
  joinAmp (v.pairs.map fun kv => QueryEscape kv.1 ++ '='.toNat :: QueryEscape kv.2)

/-- One turn of the loop of `url.ParseQuery` on the map and error so far and
the next `&`-separated piece. -/
def parsePair (acc : Values × error) (key : Bytes) : Values × error :=
  if ';'.toNat ∈ key then (acc.1, some "invalid semicolon separator in query")
  else if key = [] then acc
  else
    let (k, value) := cut '='.toNat key
    match QueryUnescape k with
    | none => (acc.1, saveError acc.2 (some "invalid URL escape"))
    | some k1 =>
      match QueryUnescape value with
      | none => (acc.1, saveError acc.2 (some "invalid URL escape"))
      | some value1 => (acc.1.Add k1 value1, acc.2)

/-- The loop of `url.ParseQuery`: `fuel` bounds the number of pieces. -/
def parseQuery : Nat → Bytes → Values × error → Values × error
  | 0, _, acc => acc
  | _ + 1, [], acc => acc
  | fuel + 1, c :: cs, acc =>
    let (key, query) := cut '&'.toNat (c :: cs)
    parseQuery fuel query (parsePair acc key)

/-- Go's `url.ParseQuery`: the map of the valid pairs, and the first error. -/
def ParseQuery (query : Bytes) : Values × error :=
  parseQuery query.length query ([], none)

/-- A parsed URL. -/
structure URL where
  Scheme : Bytes
  Host : Bytes
  Path : Bytes
  RawQuery : Bytes
  Fragment : Bytes
deriving DecidableEq, Repr

def isLetter (c : Nat) : Bool :=
  ('a'.toNat ≤ c && c ≤ 'z'.toNat) || ('A'.toNat ≤ c && c ≤ 'Z'.toNat)

def isDigitByte (c : Nat) : Bool :=
  '0'.toNat ≤ c && c ≤ '9'.toNat

/-- Go's `strings.ToLower` on one ASCII byte. -/
def toLower (c : Nat) : Nat :=
  if 'A'.toNat ≤ c ∧ c ≤ 'Z'.toNat then c + 32 else c

/-- The scheme characters up to the first `:`, and what follows it. -/
def schemeRest : Bytes → Option (Bytes × Bytes)
  | [] => none
  | c :: cs =>
    if c = ':'.toNat then some ([], cs)
    else if isLetter c || isDigitByte c || c = '+'.toNat || c = '-'.toNat || c = '.'.toNat then
      match schemeRest cs with
      | some (scheme, rest) => some (c :: scheme, rest)
      | none => none
    else none

/-- Go's `getScheme` where it finds a scheme: letters, digits, `+`, `-`, `.`
after a first letter, then `:`. -/
def getScheme (rawURL : Bytes) : Option (Bytes × Bytes) :=
  match rawURL with
  | [] => none
  | c :: _ => if isLetter c then schemeRest rawURL else none

/-- A control byte: `stringContainsCTLByte` looks for one. -/
def isCTL (c : Nat) : Bool :=
  c < 0x20 || c = 0x7f

/-- The authority up to the first `/`, and the path from that `/` on. -/
def splitAuthority : Bytes → Bytes × Bytes
  | [] => ([], [])
  | c :: cs =>
    if c = '/'.toNat then ([], c :: cs)
    else
      let (authority, rest) := splitAuthority cs
      (c :: authority, rest)

/-- Go's `url.Parse` on `scheme://host/path?query#fragment` with a host of
letters, digits, `-` and `.`; any other form of URL is `beyond`. -/
def Parse (rawURL : Bytes) : Outcome URL :=
  let (u, frag) := cut '#'.toNat rawURL
  if u.any isCTL then .err "net/url: invalid control character in URL"
  else
    match getScheme u with
    | none => .beyond
    | some (scheme, rest) =>
      let (rest1, rawQuery) := cut '?'.toNat rest
      match rest1 with
      | a :: b :: rest2 =>
        if a = '/'.toNat ∧ b = '/'.toNat then
          let (authority, path) := splitAuthority rest2
          if authority ≠ [] ∧
              authority.all (fun c => isLetter c || isDigitByte c || c = '-'.toNat ||
                c = '.'.toNat) then
            match unescape false path with
            | none => .err "invalid URL escape"
            | some path1 =>
              match unescape false frag with
              | none => .err "invalid URL escape"
              | some frag1 =>
                .ok { Scheme := scheme.map toLower, Host := authority, Path := path1,
                      RawQuery := rawQuery, Fragment := frag1 }
          else .beyond
        else .beyond
      | _ => .beyond

/-! ## The request the agent makes

A model of what `End()` does with the calls the package makes on the agent
(`Get` or `Post`, `Query` and `Send` with a string, `Set` of the
`Authorization` header) before it sends: `Query` and `Send` read their string
as JSON if it is JSON, else as a query string; `End` parses the URL, adds the
query data to the URL's own query and writes the form data as the body.  The
strings the package hands over never begin a JSON value; the JSON branches
are `beyond`. -/

/-- The request as `http.NewRequest` and the agent set it up. -/
structure HttpRequest where
  Method : String
  URL : URL
  Header : List (String × String)
  Body : Bytes
deriving DecidableEq, Repr

/-- The fields of the agent that `Query` and `Send` fill. -/
structure SuperAgent where
  QueryData : Values := []
  Errors : List String := []
  Data : Values := []
  TargetType : String := "json"
  BounceToRawString : Bool := false
  RawString : Bytes := []
deriving DecidableEq, Repr

/-- Whether the first byte after JSON white space can begin a JSON value. -/
def beginsJSON : Bytes → Bool
  | [] => false
  | c :: cs =>
    if c = ' '.toNat ∨ c = '\t'.toNat ∨ c = '\r'.toNat ∨ c = '\n'.toNat then beginsJSON cs
    else c = '{'.toNat || c = '['.toNat || c = '"'.toNat || c = '-'.toNat || isDigitByte c ||
      c = 't'.toNat || c = 'f'.toNat || c = 'n'.toNat

/-- The agent's `Query` with a string that is not JSON: its pairs are added
to the query data, or its error to the agent's errors. -/
def SuperAgent.queryString (s : SuperAgent) (content : Bytes) : SuperAgent :=
  match ParseQuery content with
  | (queryData, none) =>
    { s with QueryData := queryData.pairs.foldl (fun q kv => q.Add kv.1 kv.2) s.QueryData }
  | (_, some e) => { s with Errors := s.Errors ++ [e] }

/-- The agent's form data takes a further value of a key in front of the
values the key has. -/
def dataAdd : Values → Bytes → Bytes → Values
  | [], key, value => [(key, [value])]
  | (k, vs) :: rest, key, value =>
    if key = k then (k, value :: vs) :: rest
    else if bytesLt key k then (key, [value]) :: (k, vs) :: rest
    else (k, vs) :: dataAdd rest key value

/-- The agent's `SendString` with a string that is not JSON: its pairs become
form data and the body a form; a string that does not parse makes the body
the raw string. -/
def SuperAgent.SendString (s : SuperAgent) (content : Bytes) : SuperAgent :=
  let s1 : SuperAgent :=
    if s.BounceToRawString then s
    else
      match ParseQuery content with
      | (formData, none) =>
        { s with Data := formData.pairs.foldl (fun d kv => dataAdd d kv.1 kv.2) s.Data,
                 TargetType := "form" }
      | (_, some _) => { s with BounceToRawString := true }
  { s1 with RawString := s1.RawString ++ content }

/-- The body and content type `MakeRequest` chooses. -/
def SuperAgent.content (s : SuperAgent) : Bytes × String :=
  if s.TargetType = "form" then
    let contentForm := if s.BounceToRawString then s.RawString else s.Data.Encode
    if contentForm ≠ [] then (contentForm, "application/x-www-form-urlencoded") else ([], "")
  else if s.BounceToRawString then (s.RawString, "application/json")
  else ([], "")

/-- The request `End()` makes of the calls recorded in a `Request`, or the
error it returns without sending.  `beyond`: a method other than GET and
POST, a header other than `Authorization`, a GET with a body, a string that
begins a JSON value, or a URL `Parse` does not model. -/
def MakeRequest (r : Request) : Outcome HttpRequest :=
  if (r.Method ≠ "GET" ∧ r.Method ≠ "POST") ∨ (r.Method = "GET" ∧ r.Data ≠ []) ∨
      r.Header.any (fun h => h.1 ≠ "Authorization") ∨
      r.QueryData.any (fun q => beginsJSON (utf8 q)) ∨
      r.Data.any (fun d => beginsJSON (utf8 d)) then .beyond
  else
    let s0 : SuperAgent := {}
    let s1 := r.QueryData.foldl (fun s q => s.queryString (utf8 q)) s0
    let s := r.Data.foldl (fun s d => s.SendString (utf8 d)) s1
    match s.Errors with
    | e :: _ => .err e
    | [] =>
      match Parse (utf8 r.Url) with
      | .beyond => .beyond
      | .err e => .err e
      | .ok url =>
        let q := s.QueryData.pairs.foldl (fun q kv => q.Add kv.1 kv.2) (ParseQuery url.RawQuery).1
        let header : List (String × String) :=
          match r.Header.getLast? with
          | some h => [h]
          | none => []
        let contentType : List (String × String) :=
          if s.content.2 = "" then [] else [("Content-Type", s.content.2)]
        .ok { Method := r.Method, URL := { url with RawQuery := q.Encode },
              Header := header ++ contentType, Body := s.content.1 }

/-! ## Runs of the session and test servers -/

/-- One call of `Authenticate`: its arguments, and the network and decoder it
meets. -/
structure AuthCall where
  username : String
  password : String
  End : Request → EndResult
  unmarshal : Unmarshal AuthResp

/-- A sequence of `Authenticate` calls on a session: the error of each call,
and the session they leave. -/
def runAuthenticate : UltraDns → List AuthCall → List error × UltraDns
  | ud, [] => ([], ud)
  | ud, c :: cs =>
    let r := Authenticate c.End c.unmarshal ud c.username c.password
    let rest := runAuthenticate r.2 cs
    (r.1 :: rest.1, rest.2)

/-- A server that answers every request with one status and body. -/
def answer (status : Int) (body : String) : Request → EndResult :=
  fun _ => { resp := { StatusCode := status }, body := body, errs := [] }

/-- A network on which no exchange completes. -/
def connectionRefused : Request → EndResult :=
  fun _ => { resp := { StatusCode := 0 }, body := "", errs := ["connection refused"] }

/-- A server that answers a request carrying the empty `Authorization` value
with status 401 and an error document, and any other request with 200. -/
def rejectEmptyAuth (body : String) : Request → EndResult :=
  fun req =>
    if ("Authorization", "") ∈ req.Header then
      { resp := { StatusCode := 401 },
        body := "\x7b\"errorCode\":60001,\"errorMessage\":\"invalid_grant:Token not found, expired or invalid.\"\x7d",
        errs := [] }
    else
      { resp := { StatusCode := 200 }, body := body, errs := [] }

/-- A token document as the authorization endpoint is expected to serve it. -/
def tokenDocument : String :=
  "\x7b\"tokenType\":\"Bearer\",\"refreshToken\":\"r1\",\"accessToken\":\"a1\",\"expiresIn\":\"3600\"\x7d"

/-- A page of one record set out of 25. -/
def rrsetsPage : String :=
  "\x7b\"resultInfo\":\x7b\"totalCount\":25,\"offset\":0,\"returnedCount\":1\x7d,\"rrSets\":[\x7b\"ownerName\":\"www.example.com.\",\"rrtype\":\"A (1)\",\"ttl\":300,\"rdata\":[\"192.0.2.1\"]\x7d]\x7d"

/-- The path, query and body of a request as text (its bytes as characters). -/
def HttpRequest.text (h : HttpRequest) : String :=
  String.mk ((h.URL.Path ++ '?'.toNat :: h.URL.RawQuery ++ ' '.toNat :: h.Body).map Char.ofNat)

/-- A server behind the agent that repeats what it was asked: it answers the
request the agent makes with status 200 and a document whose `accessToken`,
and whose one record set's `ownerName`, is the text of the request; a request
the agent does not make is answered by the agent's error. -/
def echoServer : Request → EndResult :=
  fun r =>
    match MakeRequest r with
    | .ok h =>
      { resp := { StatusCode := 200 },
        body := "\x7b\"accessToken\":\"" ++ h.text ++ "\",\"rrSets\":[\x7b\"ownerName\":\"" ++
          h.text ++ "\"\x7d]\x7d",
        errs := [] }
    | .err e => { resp := { StatusCode := 0 }, body := "", errs := [e] }
    | .beyond => { resp := { StatusCode := 0 }, body := "", errs := ["beyond the model"] }

/-! ## Lemmas -/

set_option maxRecDepth 100000

/-- A successful `Authenticate` leaves `tokenHeader = "Bearer " ++ accessToken`;
a failing one leaves the session as it was. -/
theorem Authenticate_cases (End : Request → EndResult) (unmarshal : Unmarshal AuthResp)
    (ud : UltraDns) (username password : String) :
    ((Authenticate End unmarshal ud username password).1 = none ∧
      (Authenticate End unmarshal ud username password).2.tokenHeader =
        "Bearer " ++ (Authenticate End unmarshal ud username password).2.accessToken) ∨
    ((Authenticate End unmarshal ud username password).1 ≠ none ∧
      (Authenticate End unmarshal ud username password).2 = ud) := by
  unfold Authenticate
  by_cases h1 : (End (AuthenticateRequest username password)).errs = []
  · by_cases h2 : (End (AuthenticateRequest username password)).resp.StatusCode = 200
    · by_cases h3 : (unmarshal (End (AuthenticateRequest username password)).body {}).2 = none
      · left
        simp [h1, h2, h3]
      · right
        simp [h1, h2, h3]
    · right
      simp [h1, h2]
  · right
    simp [h1]

/-- A run of `Authenticate` calls from any session: once a call has succeeded
the header is "Bearer " ++ accessToken; it also is if it was before the run;
and a run without a success changes nothing. -/
theorem runAuthenticate_inv (calls : List AuthCall) :
    ∀ ud : UltraDns,
      ((none ∈ (runAuthenticate ud calls).1 ∨ ud.tokenHeader = "Bearer " ++ ud.accessToken) →
        (runAuthenticate ud calls).2.tokenHeader =
          "Bearer " ++ (runAuthenticate ud calls).2.accessToken) ∧
      (none ∉ (runAuthenticate ud calls).1 → (runAuthenticate ud calls).2 = ud) := by
  induction calls with
  | nil =>
    intro ud
    simp [runAuthenticate]
  | cons c cs ih =>
    intro ud
    have hc := Authenticate_cases c.End c.unmarshal ud c.username c.password
    have ih1 := ih (Authenticate c.End c.unmarshal ud c.username c.password).2
    simp only [runAuthenticate, List.mem_cons]
    constructor
    · intro h
      apply ih1.1
      rcases hc with ⟨_, hh⟩ | ⟨hne, hsame⟩
      · exact Or.inr hh
      · rcases h with (h | h) | h
        · exact absurd h.symm hne
        · exact Or.inl h
        · rw [hsame]
          exact Or.inr h
    · intro h
      rcases hc with ⟨hnone, _⟩ | ⟨_, hsame⟩
      · exact absurd (Or.inl hnone.symm) h
      · rw [ih1.2 (fun hm => h (Or.inr hm)), hsame]

/-- The character of a digit below ten is a decimal digit with that value. -/
theorem digitChar_digit : ∀ k < 10, (Nat.digitChar k).isDigit = true ∧
    (Nat.digitChar k).toNat - '0'.toNat = k := by
  decide

/-- The digits `Nat.toDigitsCore` puts in front of its accumulator are decimal
digits that read back as the number. -/
theorem toDigitsCore_digits : ∀ (fuel n : Nat) (ds : List Char), n < fuel →
    ∃ pre : List Char, Nat.toDigitsCore 10 fuel n ds = pre ++ ds ∧ pre ≠ [] ∧
      (∀ c ∈ pre, c.isDigit = true) ∧ decimalValue pre = n := by
  intro fuel
  induction fuel with
  | zero => intro n ds h; omega
  | succ fuel ih =>
    intro n ds h
    have hd := digitChar_digit (n % 10) (Nat.mod_lt n (by decide))
    unfold Nat.toDigitsCore
    by_cases h0 : n / 10 = 0
    · refine ⟨[Nat.digitChar (n % 10)], ?_, by simp, ?_, ?_⟩
      · simp [h0]
      · intro c hc
        rw [List.mem_singleton.1 hc]
        exact hd.1
      · simp only [decimalValue, List.foldl]
        rw [hd.2]
        omega
    · have hlt : n / 10 < fuel := by omega
      obtain ⟨pre, hpre, _, hdig, hval⟩ := ih (n / 10) (Nat.digitChar (n % 10) :: ds) hlt
      refine ⟨pre ++ [Nat.digitChar (n % 10)], ?_, by simp, ?_, ?_⟩
      · simp [h0, hpre]
      · intro c hc
        rcases List.mem_append.1 hc with h1 | h1
        · exact hdig c h1
        · rw [List.mem_singleton.1 h1]
          exact hd.1
      · unfold decimalValue at hval ⊢
        rw [List.foldl_append, hval]
        simp only [List.foldl]
        rw [hd.2]
        omega

/-- The decimal rendering of a natural number: digits that read back. -/
theorem repr_digits (n : Nat) :
    (Nat.repr n).data ≠ [] ∧ (∀ c ∈ (Nat.repr n).data, c.isDigit = true) ∧
      decimalValue (Nat.repr n).data = n := by
  obtain ⟨pre, hpre, hne, hdig, hval⟩ := toDigitsCore_digits (n + 1) n [] (Nat.lt_succ_self n)
  have h : (Nat.repr n).data = pre := by
    simp [Nat.repr, Nat.toDigits, hpre, List.asString]
  rw [h]
  exact ⟨hne, hdig, hval⟩

/-- The characters of `Itoa i`: a `-` for a negative number, then the digits
of its absolute value. -/
theorem Itoa_data (i : Int) :
    ∃ ds : List Char, ds ≠ [] ∧ (∀ c ∈ ds, c.isDigit = true) ∧ decimalValue ds = i.natAbs ∧
      (Itoa i).data = if i < 0 then '-' :: ds else ds := by
  obtain ⟨hne, hdig, hval⟩ := repr_digits i.natAbs
  refine ⟨(Nat.repr i.natAbs).data, hne, hdig, hval, ?_⟩
  unfold Itoa
  by_cases h : i < 0
  · simp [h, String.data_append]
  · simp [h]

/-- A string of digits has no sign to split off. -/
theorem splitSign_digits (ds : List Char) (hdig : ∀ c ∈ ds, c.isDigit = true) :
    splitSign ds = (false, ds) := by
  unfold splitSign
  split
  · have h := hdig '-' (List.mem_cons_self _ _)
    exact absurd h (by decide)
  · have h := hdig '+' (List.mem_cons_self _ _)
    exact absurd h (by decide)
  · rfl

/-- Parsing a string of digits below 2^63. -/
theorem parseInt64_digits (ds : List Char) (hne : ds ≠ [])
    (hdig : ∀ c ∈ ds, c.isDigit = true) (hlt : decimalValue ds < 2 ^ 63) :
    parseInt64 ds = some (decimalValue ds : Int) := by
  have hall : ds.all Char.isDigit = true := List.all_eq_true.2 hdig
  simp only [parseInt64, splitSign_digits ds hdig]
  simpa [hne, hall] using hlt

/-- Parsing `-` followed by digits of a number up to 2^63. -/
theorem parseInt64_minus_digits (ds : List Char) (hne : ds ≠ [])
    (hdig : ∀ c ∈ ds, c.isDigit = true) (hle : decimalValue ds ≤ 2 ^ 63) :
    parseInt64 ('-' :: ds) = some (-(decimalValue ds : Int)) := by
  have hall : ds.all Char.isDigit = true := List.all_eq_true.2 hdig
  simp only [parseInt64, splitSign]
  simpa [hne, hall] using hle

/-- Go's `strconv.ParseInt` reads the rendering of a 64-bit integer back. -/
theorem parseInt64_Itoa (i : Int) (hlo : -(2 ^ 63 : Int) ≤ i) (hhi : i < (2 ^ 63 : Int)) :
    parseInt64 (Itoa i).data = some i := by
  obtain ⟨ds, hne, hdig, hval, hdata⟩ := Itoa_data i
  rw [hdata]
  by_cases h : i < 0
  · simp only [h, if_true]
    have hi : -((i.natAbs : Nat) : Int) = i := by omega
    have hle : decimalValue ds ≤ 2 ^ 63 := by omega
    rw [parseInt64_minus_digits ds hne hdig hle, hval, hi]
  · simp only [h, if_false]
    have hi : ((i.natAbs : Nat) : Int) = i := by omega
    have hlt : decimalValue ds < 2 ^ 63 := by omega
    rw [parseInt64_digits ds hne hdig hlt, hval, hi]

/-- The bytes of a concatenation. -/
theorem utf8_append (s t : String) : utf8 (s ++ t) = utf8 s ++ utf8 t := by
  simp [utf8, String.data_append]

/-- A byte below 0x80 in the encoding of a character is that character. -/
theorem utf8EncodeChar_ascii (c : Char) (b : Nat) (hb : b ∈ utf8EncodeChar c)
    (hlt : b < 0x80) : b = c.toNat := by
  unfold utf8EncodeChar at hb
  split at hb
  · simpa using hb
  · split at hb
    · simp at hb
      omega
    · split at hb
      · simp at hb
        omega
      · simp at hb
        omega

/-- A byte below 0x80 among the bytes of a string is one of its characters. -/
theorem utf8_ascii (s : String) (b : Nat) (hb : b ∈ utf8 s) (hlt : b < 0x80) :
    ∃ c ∈ s.data, c.toNat = b := by
  simp only [utf8, List.mem_flatMap] at hb
  obtain ⟨c, hc, hbc⟩ := hb
  exact ⟨c, hc, (utf8EncodeChar_ascii c b hbc hlt).symm⟩

/-- The bytes of a string are bytes. -/
theorem utf8_lt (s : String) (b : Nat) (hb : b ∈ utf8 s) : b < 256 := by
  simp only [utf8, List.mem_flatMap] at hb
  obtain ⟨c, _, hbc⟩ := hb
  have hv : c.toNat < 0x110000 := by
    have h := c.valid
    simp only [UInt32.isValidChar, Nat.isValidChar] at h
    show c.val.toNat < 0x110000
    omega
  unfold utf8EncodeChar at hbc
  split at hbc
  · simp at hbc
    omega
  · split at hbc
    · simp at hbc
      omega
    · split at hbc
      · simp at hbc
        omega
      · simp at hbc
        omega

/-- Cutting at a separator that the text before it does not contain. -/
theorem cut_append_sep (sep : Nat) (b : Bytes) :
    ∀ a : Bytes, (∀ c ∈ a, c ≠ sep) → cut sep (a ++ sep :: b) = (a, b) := by
  intro a
  induction a with
  | nil => intro _; simp [cut]
  | cons x xs ih =>
    intro h
    have hx : x ≠ sep := h x (List.mem_cons_self x xs)
    have hxs := ih (fun c hc => h c (List.mem_cons_of_mem x hc))
    simp [cut, hx, hxs]

/-- Cutting a text that does not contain the separator. -/
theorem cut_no_sep (sep : Nat) :
    ∀ a : Bytes, (∀ c ∈ a, c ≠ sep) → cut sep a = (a, []) := by
  intro a
  induction a with
  | nil => intro _; simp [cut]
  | cons x xs ih =>
    intro h
    have hx : x ≠ sep := h x (List.mem_cons_self x xs)
    have hxs := ih (fun c hc => h c (List.mem_cons_of_mem x hc))
    simp [cut, hx, hxs]

/-- A text without `%`, and without `+` where `+` stands for a space, is its
own unescaping. -/
theorem unescape_plain (plus : Bool) :
    ∀ a : Bytes, (∀ c ∈ a, c ≠ '%'.toNat ∧ (plus = true → c ≠ '+'.toNat)) →
      unescape plus a = some a := by
  intro a
  induction a with
  | nil => intro _; simp [unescape]
  | cons x xs ih =>
    intro h
    have hx := h x (List.mem_cons_self x xs)
    have hxs := ih (fun c hc => h c (List.mem_cons_of_mem x hc))
    have h1 : x ≠ 37 := hx.1
    unfold unescape
    cases plus with
    | true =>
      have h2 : x ≠ 43 := hx.2 rfl
      simp [h1, h2, hxs]
    | false => simp [h1, hxs]

/-- What `QueryEscape` writes for one byte: the byte itself when it is
unreserved, `+` for a space, else `%` and two hex digits that read back. -/
theorem escape_byte : ∀ c < 256,
    (shouldEscape c = false ∧ c ≠ 37 ∧ c ≠ 43 ∧ c ≠ 38 ∧ c ≠ 61 ∧ c ≠ 59) ∨
    (shouldEscape c = true ∧ c = 32) ∨
    (shouldEscape c = true ∧ c ≠ 32 ∧ ishex (upperhex (c / 16)) = true ∧
      ishex (upperhex (c % 16)) = true ∧
      unhex (upperhex (c / 16)) * 16 + unhex (upperhex (c % 16)) = c ∧
      upperhex (c / 16) ≠ 38 ∧ upperhex (c / 16) ≠ 61 ∧ upperhex (c / 16) ≠ 59 ∧
      upperhex (c % 16) ≠ 38 ∧ upperhex (c % 16) ≠ 61 ∧ upperhex (c % 16) ≠ 59) := by
  decide

/-- Unescaping an escaped byte string gives it back. -/
theorem QueryUnescape_QueryEscape :
    ∀ s : Bytes, (∀ c ∈ s, c < 256) → QueryUnescape (QueryEscape s) = some s := by
  intro s
  induction s with
  | nil => intro _; simp [QueryUnescape, QueryEscape, unescape]
  | cons x xs ih =>
    intro h
    have hx := h x (List.mem_cons_self x xs)
    have hxs := ih (fun c hc => h c (List.mem_cons_of_mem x hc))
    unfold QueryUnescape at hxs ⊢
    rcases escape_byte x hx with ⟨h1, h2, h3, _⟩ | ⟨h1, h2⟩ | ⟨h1, h2, h3, h4, h5, _⟩
    · unfold QueryEscape
      rw [h1]
      unfold unescape
      simp [h2, h3, hxs]
    · unfold QueryEscape
      rw [h1]
      subst h2
      unfold unescape
      simp [hxs]
    · unfold QueryEscape
      rw [h1]
      unfold unescape
      simp [h2, h3, h4, hxs, h5]

/-- An escaped byte string contains no `&`, `=` or `;`. -/
theorem QueryEscape_plain :
    ∀ s : Bytes, (∀ c ∈ s, c < 256) →
      ∀ c ∈ QueryEscape s, c ≠ 38 ∧ c ≠ 61 ∧ c ≠ 59 := by
  intro s
  induction s with
  | nil => intro _ c hc; simp [QueryEscape] at hc
  | cons x xs ih =>
    intro h c hc
    have hx := h x (List.mem_cons_self x xs)
    have hxs := ih (fun c hc => h c (List.mem_cons_of_mem x hc))
    unfold QueryEscape at hc
    rcases escape_byte x hx with ⟨h1, _, _, h4, h5, h6⟩ | ⟨h1, h2⟩ |
      ⟨h1, h2, _, _, _, a1, a2, a3, b1, b2, b3⟩
    · rw [h1] at hc
      simp only [Bool.false_eq_true, if_false, List.mem_cons] at hc
      rcases hc with hc | hc
      · rw [hc]; exact ⟨h4, h5, h6⟩
      · exact hxs c hc
    · rw [h1] at hc
      subst h2
      simp at hc
      rcases hc with hc | hc
      · rw [hc]; decide
      · exact hxs c hc
    · rw [h1] at hc
      simp [h2] at hc
      rcases hc with hc | hc | hc | hc
      · rw [hc]; decide
      · rw [hc]; exact ⟨a1, a2, a3⟩
      · rw [hc]; exact ⟨b1, b2, b3⟩
      · exact hxs c hc

/-- A byte string of unreserved bytes is its own escaping. -/
theorem QueryEscape_unreserved :
    ∀ s : Bytes, (∀ c ∈ s, shouldEscape c = false) → QueryEscape s = s := by
  intro s
  induction s with
  | nil => intro _; simp [QueryEscape]
  | cons x xs ih =>
    intro h
    have hx := h x (List.mem_cons_self x xs)
    have hxs := ih (fun c hc => h c (List.mem_cons_of_mem x hc))
    simp [QueryEscape, hx, hxs]

/-- One piece `k=v` of a query adds the pair of the unescaped key and value. -/
theorem parsePair_pair (acc : Values × error) (k v k1 v1 : Bytes)
    (hk : ∀ c ∈ k, c ≠ 61 ∧ c ≠ 59) (hv : ∀ c ∈ v, c ≠ 59)
    (hk1 : QueryUnescape k = some k1) (hv1 : QueryUnescape v = some v1) :
    parsePair acc (k ++ 61 :: v) = (acc.1.Add k1 v1, acc.2) := by
  have h1 : ¬ (59 ∈ k ++ 61 :: v) := by
    intro hmem
    rcases List.mem_append.1 hmem with h | h
    · exact (hk _ h).2 rfl
    · rcases List.mem_cons.1 h with h | h
      · exact absurd h (by decide)
      · exact hv _ h rfl
  have h2 : k ++ 61 :: v ≠ [] := by simp
  have h3 : cut 61 (k ++ 61 :: v) = (k, v) := cut_append_sep 61 v k (fun c hc => (hk c hc).1)
  unfold parsePair
  have e1 : ';'.toNat = 59 := rfl
  have e2 : '='.toNat = 61 := rfl
  rw [e1, e2, if_neg h1, if_neg h2, h3]
  simp only [hk1, hv1]

/-- The loop stops on the empty query. -/
theorem parseQuery_nil (fuel : Nat) (acc : Values × error) :
    parseQuery fuel [] acc = acc := by
  cases fuel <;> simp [parseQuery]

/-- A piece followed by `&` is consumed in one turn of the loop. -/
theorem parseQuery_piece (fuel : Nat) (key rest : Bytes) (acc : Values × error)
    (hkey : ∀ c ∈ key, c ≠ 38) :
    parseQuery (fuel + 1) (key ++ 38 :: rest) acc = parseQuery fuel rest (parsePair acc key) := by
  have h := cut_append_sep 38 rest key hkey
  have e : '&'.toNat = 38 := rfl
  cases key with
  | nil =>
    simp only [List.nil_append] at h ⊢
    simp only [parseQuery, e, h]
  | cons x xs =>
    simp only [List.cons_append] at h ⊢
    simp only [parseQuery, e, h]

/-- The last piece is consumed in one turn of the loop. -/
theorem parseQuery_last (fuel : Nat) (key : Bytes) (acc : Values × error)
    (hkey : ∀ c ∈ key, c ≠ 38) :
    parseQuery (fuel + 1) key acc = parsePair acc key := by
  have h := cut_no_sep 38 key hkey
  have e : '&'.toNat = 38 := rfl
  cases key with
  | nil => simp [parseQuery, parsePair]
  | cons x xs =>
    simp only [parseQuery, e, h, parseQuery_nil]

/-- Characters with the same code are the same. -/
theorem toNat_inj (c d : Char) (h : c.toNat = d.toNat) : c = d := by
  rw [← Char.ofNat_toNat c, ← Char.ofNat_toNat d, h]

/-- A decimal digit is encoded as one byte between `0` and `9`. -/
theorem isDigit_toNat (c : Char) (h : c.isDigit = true) : 48 ≤ c.toNat ∧ c.toNat ≤ 57 := by
  simp only [Char.isDigit, Bool.and_eq_true, decide_eq_true_eq] at h
  have h1 : (48 : UInt32).toNat ≤ c.val.toNat := h.1
  have h2 : c.val.toNat ≤ (57 : UInt32).toNat := h.2
  exact ⟨h1, h2⟩

/-- The bytes of a decimal rendering are `-` and digits. -/
theorem Itoa_bytes (i : Int) : ∀ b ∈ utf8 (Itoa i), b = 45 ∨ (48 ≤ b ∧ b ≤ 57) := by
  obtain ⟨ds, _, hdig, _, hdata⟩ := Itoa_data i
  have hchar : ∀ c ∈ (Itoa i).data, c.toNat = 45 ∨ (48 ≤ c.toNat ∧ c.toNat ≤ 57) := by
    intro c hc
    rw [hdata] at hc
    by_cases h : i < 0
    · simp only [h, if_true] at hc
      rcases List.mem_cons.1 hc with h1 | h1
      · rw [h1]; left; rfl
      · exact Or.inr (isDigit_toNat c (hdig c h1))
    · simp only [h, if_false] at hc
      exact Or.inr (isDigit_toNat c (hdig c hc))
  intro b hb
  simp only [utf8, List.mem_flatMap] at hb
  obtain ⟨c, hc, hbc⟩ := hb
  have h := hchar c hc
  have hlt : c.toNat < 0x80 := by omega
  simp only [utf8EncodeChar, hlt, if_true, List.mem_singleton] at hbc
  rw [hbc]
  exact h

/-- A key followed by `=` and a decimal rendering parses to that one pair. -/
theorem ParseQuery_key_Itoa (key : String) (i : Int)
    (hkey : ∀ c ∈ utf8 key, c ≠ 38 ∧ c ≠ 61 ∧ c ≠ 59 ∧ c ≠ 37 ∧ c ≠ 43) :
    ParseQuery (utf8 key ++ 61 :: utf8 (Itoa i)) = ([(utf8 key, [utf8 (Itoa i)])], none) := by
  have hb := Itoa_bytes i
  have hamp : ∀ c ∈ utf8 key ++ 61 :: utf8 (Itoa i), c ≠ 38 := by
    intro c hc
    rcases List.mem_append.1 hc with h | h
    · exact (hkey c h).1
    · rcases List.mem_cons.1 h with h | h
      · rw [h]; decide
      · have := hb c h
        omega
  have hk1 : QueryUnescape (utf8 key) = some (utf8 key) :=
    unescape_plain true _ (fun c hc => ⟨(hkey c hc).2.2.2.1, fun _ => (hkey c hc).2.2.2.2⟩)
  have hv1 : QueryUnescape (utf8 (Itoa i)) = some (utf8 (Itoa i)) :=
    unescape_plain true _ (fun c hc => by
      have := hb c hc
      exact ⟨by show c ≠ 37; omega, fun _ => by show c ≠ 43; omega⟩)
  have hlen : (utf8 key ++ 61 :: utf8 (Itoa i)).length =
      ((utf8 key).length + (utf8 (Itoa i)).length) + 1 := by
    simp
    omega
  unfold ParseQuery
  rw [hlen, parseQuery_last _ _ _ hamp,
    parsePair_pair _ _ _ _ _ (fun c hc => ⟨(hkey c hc).2.1, (hkey c hc).2.2.1⟩)
      (fun c hc => by have := hb c hc; omega) hk1 hv1]
  rfl

/-- A leading `&` adds nothing to what a query string parses to. -/
theorem ParseQuery_leading_amp (s : Bytes) : ParseQuery (38 :: s) = ParseQuery s := by
  unfold ParseQuery
  have h := parseQuery_piece s.length [] s ([], none) (by simp)
  simp only [List.nil_append] at h
  simp only [List.length_cons]
  rw [h]
  rfl

/-- One step of `unescape` on a byte that is not `%`. -/
theorem unescape_cons (plus : Bool) (c : Nat) (t : Bytes) (hc : c ≠ '%'.toNat) :
    unescape plus (c :: t) =
      if (plus && decide (c = '+'.toNat)) = true then
        (unescape plus t).map fun s => ' '.toNat :: s
      else (unescape plus t).map fun s => c :: s := by
  conv_lhs => unfold unescape
  rw [if_neg hc]

/-- One step of `unescape` on an escape. -/
theorem unescape_escape (plus : Bool) (x y : Nat) (t : Bytes) :
    unescape plus ('%'.toNat :: x :: y :: t) =
      if (ishex x && ishex y) = true then
        (unescape plus t).map fun s => (unhex x * 16 + unhex y) :: s
      else none := by
  conv_lhs => unfold unescape
  rw [if_pos rfl]

/-- Unescaping a concatenation of two texts that unescape. -/
theorem unescape_append (plus : Bool) (b b1 : Bytes) (hb : unescape plus b = some b1) :
    ∀ (n : Nat) (a a1 : Bytes), a.length ≤ n → unescape plus a = some a1 →
      unescape plus (a ++ b) = some (a1 ++ b1) := by
  intro n
  induction n with
  | zero =>
    intro a a1 hlen ha
    have : a = [] := List.length_eq_zero.1 (Nat.le_zero.1 hlen)
    subst this
    simp only [unescape, Option.some.injEq] at ha
    subst ha
    simpa using hb
  | succ n ih =>
    intro a a1 hlen ha
    cases a with
    | nil =>
      simp only [unescape, Option.some.injEq] at ha
      subst ha
      simpa using hb
    | cons c rest =>
      by_cases hc : c = '%'.toNat
      · subst hc
        cases rest with
        | nil => simp [unescape] at ha
        | cons x rest1 =>
          cases rest1 with
          | nil => simp [unescape] at ha
          | cons y rest2 =>
            rw [unescape_escape] at ha
            simp only [List.cons_append]
            rw [unescape_escape]
            by_cases hh : (ishex x && ishex y) = true
            · rw [if_pos hh] at ha ⊢
              cases hr : unescape plus rest2 with
              | none => simp [hr] at ha
              | some r =>
                simp only [hr, Option.map_some', Option.some.injEq] at ha
                subst ha
                have hlen2 : rest2.length ≤ n := by
                  simp only [List.length_cons] at hlen
                  omega
                rw [ih rest2 r hlen2 hr]
                rfl
            · rw [if_neg hh] at ha
              exact absurd ha (by simp)
      · have hlen2 : rest.length ≤ n := by
          simp only [List.length_cons] at hlen
          omega
        rw [unescape_cons plus c rest hc] at ha
        simp only [List.cons_append]
        rw [unescape_cons plus c (rest ++ b) hc]
        cases hr : unescape plus rest with
        | none => simp [hr] at ha
        | some r =>
          rw [ih rest r hlen2 hr]
          by_cases hp : (plus && decide (c = '+'.toNat)) = true
          · rw [if_pos hp] at ha ⊢
            simp only [hr, Option.map_some', Option.some.injEq] at ha
            subst ha
            rfl
          · rw [if_neg hp] at ha ⊢
            simp only [hr, Option.map_some', Option.some.injEq] at ha
            subst ha
            rfl

/-- Splitting the authority from a path that begins with `/`. -/
theorem splitAuthority_append (p : Bytes) :
    ∀ a : Bytes, (∀ c ∈ a, c ≠ 47) → splitAuthority (a ++ 47 :: p) = (a, 47 :: p) := by
  intro a
  induction a with
  | nil => intro _; simp [splitAuthority]
  | cons x xs ih =>
    intro h
    have hx : x ≠ 47 := h x (List.mem_cons_self x xs)
    have hxs := ih (fun c hc => h c (List.mem_cons_of_mem x hc))
    simp [splitAuthority, hx, hxs]

/-- Parsing a URL of the API host whose path has no `#`, `?` or control byte
and unescapes. -/
theorem Parse_UltraHost (p p1 : Bytes)
    (hp : ∀ c ∈ p, c ≠ 35 ∧ c ≠ 63 ∧ isCTL c = false)
    (hpath : unescape false (47 :: p) = some p1) :
    Parse (utf8 "https://restapi.ultradns.com" ++ 47 :: p) =
      .ok { Scheme := utf8 "https", Host := utf8 "restapi.ultradns.com", Path := p1,
            RawQuery := [], Fragment := [] } := by
  have hpre : utf8 "https://restapi.ultradns.com" =
      utf8 "https" ++ 58 :: 47 :: 47 :: utf8 "restapi.ultradns.com" := by decide
  have hhost : ∀ c ∈ utf8 "restapi.ultradns.com", c ≠ 35 ∧ c ≠ 63 ∧ c ≠ 47 ∧ isCTL c = false := by
    decide
  have hall : ∀ c ∈ utf8 "https://restapi.ultradns.com" ++ 47 :: p,
      c ≠ 35 ∧ isCTL c = false := by
    intro c hc
    rcases List.mem_append.1 hc with h | h
    · exact (by decide : ∀ c ∈ utf8 "https://restapi.ultradns.com", c ≠ 35 ∧ isCTL c = false) c h
    · rcases List.mem_cons.1 h with h | h
      · rw [h]; decide
      · exact ⟨(hp c h).1, (hp c h).2.2⟩
  have hcut1 : cut '#'.toNat (utf8 "https://restapi.ultradns.com" ++ 47 :: p) =
      (utf8 "https://restapi.ultradns.com" ++ 47 :: p, []) :=
    cut_no_sep _ _ (fun c hc => (hall c hc).1)
  have hany : (utf8 "https://restapi.ultradns.com" ++ 47 :: p).any isCTL = false := by
    rw [List.any_eq_false]
    intro c hc
    simp [(hall c hc).2]
  have hscheme : getScheme (utf8 "https://restapi.ultradns.com" ++ 47 :: p) =
      some (utf8 "https", 47 :: 47 :: (utf8 "restapi.ultradns.com" ++ 47 :: p)) := by
    have e : utf8 "https://restapi.ultradns.com" ++ 47 :: p =
        104 :: 116 :: 116 :: 112 :: 115 :: 58 :: 47 :: 47 ::
          (utf8 "restapi.ultradns.com" ++ 47 :: p) := by
      rw [hpre]
      rfl
    rw [e]
    rfl
  have hcut2 : cut '?'.toNat (47 :: 47 :: (utf8 "restapi.ultradns.com" ++ 47 :: p)) =
      (47 :: 47 :: (utf8 "restapi.ultradns.com" ++ 47 :: p), []) := by
    apply cut_no_sep
    intro c hc
    rcases List.mem_cons.1 hc with h | h
    · rw [h]; decide
    · rcases List.mem_cons.1 h with h | h
      · rw [h]; decide
      · rcases List.mem_append.1 h with h | h
        · exact (hhost c h).2.1
        · rcases List.mem_cons.1 h with h | h
          · rw [h]; decide
          · exact (hp c h).2.1
  have hsplit : splitAuthority (utf8 "restapi.ultradns.com" ++ 47 :: p) =
      (utf8 "restapi.ultradns.com", 47 :: p) :=
    splitAuthority_append p _ (fun c hc => (hhost c hc).2.2.1)
  have hfrag : unescape false [] = some [] := rfl
  have hauth : (utf8 "restapi.ultradns.com" ≠ [] ∧
      (utf8 "restapi.ultradns.com").all (fun c => isLetter c || isDigitByte c ||
        c = '-'.toNat || c = '.'.toNat) = true) := by decide
  have hlow : (utf8 "https").map toLower = utf8 "https" := by decide
  unfold Parse
  simp only [hcut1, hany, hscheme, hcut2, hsplit, hpath, hfrag, hlow]
  simp [hauth]
  decide

/-- A query string of one pair adds that pair to the agent's query data. -/
theorem queryString_pair (s : SuperAgent) (content k v : Bytes)
    (h : ParseQuery content = ([(k, [v])], none)) :
    s.queryString content = { s with QueryData := s.QueryData.Add k v } := by
  simp [SuperAgent.queryString, h, Values.pairs]

/-- The bytes of a decimal rendering are unreserved. -/
theorem QueryEscape_Itoa (i : Int) : QueryEscape (utf8 (Itoa i)) = utf8 (Itoa i) := by
  apply QueryEscape_unreserved
  intro c hc
  have h := Itoa_bytes i c hc
  have hlt : c < 58 := by omega
  have : ∀ c < 58, (c = 45 ∨ (48 ≤ c ∧ c ≤ 57)) → shouldEscape c = false := by decide
  exact this c hlt h

/-- The request the agent makes of the calls of `GetRRsets`, for a zone name
without `?`, `#` and control characters whose `%` escapes are well formed. -/
theorem MakeRequest_GetRRsetsRequest (ud : UltraDns) (zName : String) (offset limit : Int)
    (zb : Bytes)
    (hz : ∀ c ∈ zName.data, c ≠ '?' ∧ c ≠ '#' ∧ 0x20 ≤ c.toNat ∧ c.toNat ≠ 0x7F)
    (hesc : unescape false (utf8 zName) = some zb) :
    MakeRequest (GetRRsetsRequest ud zName offset limit) =
      .ok { Method := "GET"
            URL := { Scheme := utf8 "https"
                     Host := utf8 "restapi.ultradns.com"
                     Path := utf8 "/v1/zones/" ++ zb ++ utf8 "/rrsets"
                     RawQuery := utf8 ("limit=" ++ Itoa limit ++ "&offset=" ++ Itoa offset)
                     Fragment := [] }
            Header := [("Authorization", ud.tokenHeader)]
            Body := [] } := by
  have hreq : GetRRsetsRequest ud zName offset limit =
      { Method := "GET", Url := UltraHost ++ "/v1/zones/" ++ zName ++ "/rrsets",
        QueryData := ["offset=" ++ Itoa offset, "&limit=" ++ Itoa limit],
        Header := [("Authorization", ud.tokenHeader)], Data := [] } := rfl
  have hq1 : utf8 ("offset=" ++ Itoa offset) = utf8 "offset" ++ 61 :: utf8 (Itoa offset) := by
    rw [utf8_append]
    rfl
  have hq2 : utf8 ("&limit=" ++ Itoa limit) = 38 :: (utf8 "limit" ++ 61 :: utf8 (Itoa limit)) := by
    rw [utf8_append]
    rfl
  have hzb : ∀ b ∈ utf8 zName, b ≠ 35 ∧ b ≠ 63 ∧ isCTL b = false := by
    intro b hb
    by_cases hlt : b < 0x80
    · obtain ⟨c, hc, hcb⟩ := utf8_ascii zName b hb hlt
      obtain ⟨h1, h2, h4, h5⟩ := hz c hc
      have n1 : c.toNat ≠ '?'.toNat := fun h => h1 (toNat_inj _ _ h)
      have n2 : c.toNat ≠ '#'.toNat := fun h => h2 (toNat_inj _ _ h)
      rw [hcb] at n1 n2 h4 h5
      refine ⟨n2, n1, ?_⟩
      simp only [isCTL, Bool.or_eq_false_iff, decide_eq_false_iff_not]
      omega
    · refine ⟨by omega, by omega, ?_⟩
      simp only [isCTL, Bool.or_eq_false_iff, decide_eq_false_iff_not]
      omega
  have hurl : utf8 (UltraHost ++ "/v1/zones/" ++ zName ++ "/rrsets") =
      utf8 "https://restapi.ultradns.com" ++
        47 :: (utf8 "v1/zones/" ++ (utf8 zName ++ utf8 "/rrsets")) := by
    rw [utf8_append, utf8_append]
    have e : utf8 (UltraHost ++ "/v1/zones/") =
        utf8 "https://restapi.ultradns.com" ++ 47 :: utf8 "v1/zones/" := by decide
    rw [e]
    simp
  have hpathb : ∀ c ∈ utf8 "v1/zones/" ++ (utf8 zName ++ utf8 "/rrsets"),
      c ≠ 35 ∧ c ≠ 63 ∧ isCTL c = false := by
    intro c hc
    rcases List.mem_append.1 hc with h | h
    · exact (by decide : ∀ c ∈ utf8 "v1/zones/", c ≠ 35 ∧ c ≠ 63 ∧ isCTL c = false) c h
    · rcases List.mem_append.1 h with h | h
      · exact hzb c h
      · exact (by decide : ∀ c ∈ utf8 "/rrsets", c ≠ 35 ∧ c ≠ 63 ∧ isCTL c = false) c h
  have hunesc : unescape false (47 :: (utf8 "v1/zones/" ++ (utf8 zName ++ utf8 "/rrsets"))) =
      some (utf8 "/v1/zones/" ++ zb ++ utf8 "/rrsets") := by
    have h1 : unescape false (utf8 zName ++ utf8 "/rrsets") = some (zb ++ utf8 "/rrsets") :=
      unescape_append false _ _ (by decide) _ _ _ (Nat.le_refl _) hesc
    have h2 := unescape_append false _ _ h1 _ (utf8 "/v1/zones/") (utf8 "/v1/zones/")
      (Nat.le_refl _) (by decide)
    have e : utf8 "/v1/zones/" = 47 :: utf8 "v1/zones/" := by decide
    rw [List.append_assoc, ← h2, e]
    rfl
  have hparse := Parse_UltraHost _ _ hpathb hunesc
  have hp1 : ParseQuery (utf8 "offset" ++ 61 :: utf8 (Itoa offset)) =
      ([(utf8 "offset", [utf8 (Itoa offset)])], none) :=
    ParseQuery_key_Itoa "offset" offset (by decide)
  have hp2 : ParseQuery (38 :: (utf8 "limit" ++ 61 :: utf8 (Itoa limit))) =
      ([(utf8 "limit", [utf8 (Itoa limit)])], none) := by
    rw [ParseQuery_leading_amp]
    exact ParseQuery_key_Itoa "limit" limit (by decide)
  have hb1 : beginsJSON (utf8 ("offset=" ++ Itoa offset)) = false := by
    rw [hq1]
    rfl
  have hb2 : beginsJSON (utf8 ("&limit=" ++ Itoa limit)) = false := by
    rw [hq2]
    rfl
  have hb3 : beginsJSON (utf8 "offset" ++ 61 :: utf8 (Itoa offset)) = false := rfl
  have hb4 : beginsJSON (38 :: (utf8 "limit" ++ 61 :: utf8 (Itoa limit))) = false := rfl
  have hne : (utf8 "limit" = utf8 "offset") = False := by decide
  have hne2 : (utf8 "offset" = utf8 "limit") = False := by decide
  have hlt : bytesLt (utf8 "limit") (utf8 "offset") = true := by decide
  have hlt2 : bytesLt (utf8 "offset") (utf8 "limit") = false := by decide
  have hk1 : QueryEscape (utf8 "limit") = utf8 "limit" := by decide
  have hk2 : QueryEscape (utf8 "offset") = utf8 "offset" := by decide
  have hquery : utf8 ("limit=" ++ Itoa limit ++ "&offset=" ++ Itoa offset) =
      utf8 "limit" ++ 61 :: (utf8 (Itoa limit) ++ 38 :: (utf8 "offset" ++
        61 :: utf8 (Itoa offset))) := by
    rw [utf8_append, utf8_append, utf8_append]
    have e1 : utf8 "limit=" = utf8 "limit" ++ [61] := by decide
    have e2 : utf8 "&offset=" = 38 :: (utf8 "offset" ++ [61]) := by decide
    rw [e1, e2]
    simp
  have hempty : ParseQuery [] = ([], none) := rfl
  rw [hreq, hquery]
  unfold MakeRequest
  simp only [List.any, hb1, hb2, hq1, hq2, hurl, hparse, List.foldl, queryString_pair _ _ _ _ hp1,
    queryString_pair _ _ _ _ hp2, hempty]
  simp [hb1, hb2, hb3, hb4, Values.Add, Values.pairs, Values.Encode, joinAmp, hne, hne2, hlt, hlt2,
    hk1, hk2, QueryEscape_Itoa, SuperAgent.content]

/-- A string without an ASCII character has no byte with that code. -/
theorem utf8_avoid (s : String) (x : Char) (hx : x.toNat < 0x80) (h : ∀ c ∈ s.data, c ≠ x) :
    ∀ b ∈ utf8 s, b ≠ x.toNat := by
  intro b hb hbx
  have hlt : b < 0x80 := by omega
  obtain ⟨c, hc, hcb⟩ := utf8_ascii s b hb hlt
  exact h c hc (toNat_inj c x (by omega))

/-- A query of three pieces `k=v` parses to the three pairs. -/
theorem ParseQuery_three (a1 b1 a2 b2 a3 b3 x1 y1 x2 y2 x3 y3 : Bytes)
    (ha1 : ∀ c ∈ a1, c ≠ 38 ∧ c ≠ 61 ∧ c ≠ 59) (hb1 : ∀ c ∈ b1, c ≠ 38 ∧ c ≠ 59)
    (ha2 : ∀ c ∈ a2, c ≠ 38 ∧ c ≠ 61 ∧ c ≠ 59) (hb2 : ∀ c ∈ b2, c ≠ 38 ∧ c ≠ 59)
    (ha3 : ∀ c ∈ a3, c ≠ 38 ∧ c ≠ 61 ∧ c ≠ 59) (hb3 : ∀ c ∈ b3, c ≠ 38 ∧ c ≠ 59)
    (hx1 : QueryUnescape a1 = some x1) (hy1 : QueryUnescape b1 = some y1)
    (hx2 : QueryUnescape a2 = some x2) (hy2 : QueryUnescape b2 = some y2)
    (hx3 : QueryUnescape a3 = some x3) (hy3 : QueryUnescape b3 = some y3) :
    ParseQuery ((a1 ++ 61 :: b1) ++ 38 :: ((a2 ++ 61 :: b2) ++ 38 :: (a3 ++ 61 :: b3))) =
      (Values.Add (Values.Add (Values.Add [] x1 y1) x2 y2) x3 y3, none) := by
  have hpiece : ∀ (a b : Bytes), (∀ c ∈ a, c ≠ 38 ∧ c ≠ 61 ∧ c ≠ 59) →
      (∀ c ∈ b, c ≠ 38 ∧ c ≠ 59) → ∀ c ∈ a ++ 61 :: b, c ≠ 38 := by
    intro a b ha hb c hc
    rcases List.mem_append.1 hc with h | h
    · exact (ha c h).1
    · rcases List.mem_cons.1 h with h | h
      · rw [h]; decide
      · exact (hb c h).1
  have hlen : ∃ f, ((a1 ++ 61 :: b1) ++ 38 :: ((a2 ++ 61 :: b2) ++ 38 :: (a3 ++ 61 :: b3))).length
      = f + 3 := by
    refine ⟨a1.length + b1.length + a2.length + b2.length + a3.length + b3.length + 2, ?_⟩
    simp
    omega
  obtain ⟨f, hf⟩ := hlen
  unfold ParseQuery
  rw [hf, parseQuery_piece _ _ _ _ (hpiece a1 b1 ha1 hb1),
    parseQuery_piece _ _ _ _ (hpiece a2 b2 ha2 hb2), parseQuery_last _ _ _ (hpiece a3 b3 ha3 hb3),
    parsePair_pair _ a3 b3 x3 y3 (fun c hc => (ha3 c hc).2) (fun c hc => (hb3 c hc).2) hx3 hy3,
    parsePair_pair _ a2 b2 x2 y2 (fun c hc => (ha2 c hc).2) (fun c hc => (hb2 c hc).2) hx2 hy2,
    parsePair_pair _ a1 b1 x1 y1 (fun c hc => (ha1 c hc).2) (fun c hc => (hb1 c hc).2) hx1 hy1]

/-- The bytes of the payload of `Authenticate`, piece by piece. -/
theorem utf8_payLoad (username password : String) :
    utf8 ("grant_type=password&username=" ++ username ++ "&password=" ++ password) =
      (utf8 "grant_type" ++ 61 :: utf8 "password") ++
        38 :: ((utf8 "username" ++ 61 :: utf8 username) ++
          38 :: (utf8 "password" ++ 61 :: utf8 password)) := by
  rw [utf8_append, utf8_append, utf8_append]
  have e1 : utf8 "grant_type=password&username=" =
      (utf8 "grant_type" ++ 61 :: utf8 "password") ++ 38 :: (utf8 "username" ++ [61]) := by
    decide
  have e2 : utf8 "&password=" = 38 :: (utf8 "password" ++ [61]) := by decide
  rw [e1, e2]
  simp

/-- The map the three pairs of the token request make, in key order. -/
theorem Values_three (u p : Bytes) :
    Values.Add (Values.Add (Values.Add [] (utf8 "grant_type") (utf8 "password"))
      (utf8 "username") u) (utf8 "password") p =
      [(utf8 "grant_type", [utf8 "password"]), (utf8 "password", [p]), (utf8 "username", [u])] ∧
    Values.Add (Values.Add (Values.Add [] (utf8 "grant_type") (utf8 "password"))
      (utf8 "password") p) (utf8 "username") u =
      [(utf8 "grant_type", [utf8 "password"]), (utf8 "password", [p]), (utf8 "username", [u])] ∧
    dataAdd (dataAdd (dataAdd [] (utf8 "grant_type") (utf8 "password"))
      (utf8 "password") p) (utf8 "username") u =
      [(utf8 "grant_type", [utf8 "password"]), (utf8 "password", [p]), (utf8 "username", [u])] := by
  have n1 : (utf8 "username" = utf8 "grant_type") = False := by decide
  have n2 : (utf8 "password" = utf8 "grant_type") = False := by decide
  have n3 : (utf8 "password" = utf8 "username") = False := by decide
  have n4 : (utf8 "username" = utf8 "password") = False := by decide
  have l1 : bytesLt (utf8 "username") (utf8 "grant_type") = false := by decide
  have l2 : bytesLt (utf8 "password") (utf8 "grant_type") = false := by decide
  have l3 : bytesLt (utf8 "password") (utf8 "username") = true := by decide
  have l4 : bytesLt (utf8 "username") (utf8 "password") = false := by decide
  simp [Values.Add, dataAdd, n1, n2, n3, n4, l1, l2, l3, l4]

/-- What the payload of `Authenticate` parses to when user name and password
contain no `&`, `;`, `%` or `+`. -/
theorem ParseQuery_payLoad (u p : Bytes)
    (hu : ∀ b ∈ u, b ≠ 38 ∧ b ≠ 59 ∧ b ≠ 37 ∧ b ≠ 43)
    (hp : ∀ b ∈ p, b ≠ 38 ∧ b ≠ 59 ∧ b ≠ 37 ∧ b ≠ 43) :
    ParseQuery ((utf8 "grant_type" ++ 61 :: utf8 "password") ++
        38 :: ((utf8 "username" ++ 61 :: u) ++ 38 :: (utf8 "password" ++ 61 :: p))) =
      ([(utf8 "grant_type", [utf8 "password"]), (utf8 "password", [p]), (utf8 "username", [u])],
        none) := by
  have hplain : ∀ s : Bytes, (∀ b ∈ s, b ≠ 38 ∧ b ≠ 59 ∧ b ≠ 37 ∧ b ≠ 43) →
      QueryUnescape s = some s := fun s hs =>
    unescape_plain true s (fun c hc => ⟨(hs c hc).2.2.1, fun _ => (hs c hc).2.2.2⟩)
  rw [ParseQuery_three (utf8 "grant_type") (utf8 "password") (utf8 "username") u
      (utf8 "password") p (utf8 "grant_type") (utf8 "password") (utf8 "username") u
      (utf8 "password") p (by decide) (by decide) (by decide)
      (fun c hc => ⟨(hu c hc).1, (hu c hc).2.1⟩) (by decide)
      (fun c hc => ⟨(hp c hc).1, (hp c hc).2.1⟩) (by decide) (by decide) (by decide)
      (hplain u hu) (by decide) (hplain p hp), (Values_three u p).1]

/-- What the body the agent writes for `Authenticate` parses to. -/
theorem ParseQuery_formBody (u p : Bytes) (hu : ∀ b ∈ u, b < 256) (hp : ∀ b ∈ p, b < 256) :
    ParseQuery ((utf8 "grant_type" ++ 61 :: utf8 "password") ++
        38 :: ((utf8 "password" ++ 61 :: QueryEscape p) ++
          38 :: (utf8 "username" ++ 61 :: QueryEscape u))) =
      ([(utf8 "grant_type", [utf8 "password"]), (utf8 "password", [p]), (utf8 "username", [u])],
        none) := by
  rw [ParseQuery_three (utf8 "grant_type") (utf8 "password") (utf8 "password") (QueryEscape p)
      (utf8 "username") (QueryEscape u) (utf8 "grant_type") (utf8 "password") (utf8 "password") p
      (utf8 "username") u (by decide) (by decide) (by decide)
      (fun c hc => ⟨(QueryEscape_plain p hp c hc).1, (QueryEscape_plain p hp c hc).2.2⟩)
      (by decide)
      (fun c hc => ⟨(QueryEscape_plain u hu c hc).1, (QueryEscape_plain u hu c hc).2.2⟩)
      (by decide) (by decide) (by decide) (QueryUnescape_QueryEscape p hp) (by decide)
      (QueryUnescape_QueryEscape u hu), (Values_three u p).2.1]

/-- The request the agent makes of the calls of `Authenticate`, for a user
name and a password without `&`, `;`, `%` and `+`. -/
theorem MakeRequest_AuthenticateRequest (username password : String)
    (hu : ∀ c ∈ username.data, c ≠ '&' ∧ c ≠ ';' ∧ c ≠ '%' ∧ c ≠ '+')
    (hp : ∀ c ∈ password.data, c ≠ '&' ∧ c ≠ ';' ∧ c ≠ '%' ∧ c ≠ '+') :
    MakeRequest (AuthenticateRequest username password) =
      .ok { Method := "POST"
            URL := { Scheme := utf8 "https"
                     Host := utf8 "restapi.ultradns.com"
                     Path := utf8 "/v1/authorization/token"
                     RawQuery := []
                     Fragment := [] }
            Header := [("Content-Type", "application/x-www-form-urlencoded")]
            Body := utf8 "grant_type=password&password=" ++ QueryEscape (utf8 password) ++
              utf8 "&username=" ++ QueryEscape (utf8 username) } := by
  have hbytes : ∀ s : String, (∀ c ∈ s.data, c ≠ '&' ∧ c ≠ ';' ∧ c ≠ '%' ∧ c ≠ '+') →
      ∀ b ∈ utf8 s, b ≠ 38 ∧ b ≠ 59 ∧ b ≠ 37 ∧ b ≠ 43 := fun s hs b hb =>
    ⟨utf8_avoid s '&' (by decide) (fun c hc => (hs c hc).1) b hb,
      utf8_avoid s ';' (by decide) (fun c hc => (hs c hc).2.1) b hb,
      utf8_avoid s '%' (by decide) (fun c hc => (hs c hc).2.2.1) b hb,
      utf8_avoid s '+' (by decide) (fun c hc => (hs c hc).2.2.2) b hb⟩
  have hreq : AuthenticateRequest username password =
      { Method := "POST", Url := AuthURL, QueryData := [], Header := [],
        Data := ["grant_type=password&username=" ++ username ++ "&password=" ++ password] } :=
    rfl
  have hpay := utf8_payLoad username password
  have hparse := ParseQuery_payLoad (utf8 username) (utf8 password) (hbytes username hu)
    (hbytes password hp)
  have hjson : beginsJSON (utf8 ("grant_type=password&username=" ++ username ++ "&password=" ++
      password)) = false := by
    rw [hpay]
    rfl
  have hjson2 : beginsJSON ((utf8 "grant_type" ++ 61 :: utf8 "password") ++
        38 :: ((utf8 "username" ++ 61 :: utf8 username) ++
          38 :: (utf8 "password" ++ 61 :: utf8 password))) = false := rfl
  have hurl : Parse (utf8 AuthURL) =
      .ok { Scheme := utf8 "https", Host := utf8 "restapi.ultradns.com",
            Path := utf8 "/v1/authorization/token", RawQuery := [], Fragment := [] } := by
    decide
  have hempty : ParseQuery [] = ([], none) := rfl
  have hk1 : QueryEscape (utf8 "grant_type") = utf8 "grant_type" := by decide
  have hk2 : QueryEscape (utf8 "password") = utf8 "password" := by decide
  have hk3 : QueryEscape (utf8 "username") = utf8 "username" := by decide
  have hg : (utf8 "grant_type" = []) = False := by decide
  have hbody : utf8 "grant_type=password&password=" ++ QueryEscape (utf8 password) ++
      utf8 "&username=" ++ QueryEscape (utf8 username) =
      (utf8 "grant_type" ++ 61 :: utf8 "password") ++
        38 :: ((utf8 "password" ++ 61 :: QueryEscape (utf8 password)) ++
          38 :: (utf8 "username" ++ 61 :: QueryEscape (utf8 username))) := by
    have e1 : utf8 "grant_type=password&password=" =
        (utf8 "grant_type" ++ 61 :: utf8 "password") ++ 38 :: (utf8 "password" ++ [61]) := by
      decide
    have e2 : utf8 "&username=" = 38 :: (utf8 "username" ++ [61]) := by decide
    rw [e1, e2]
    simp
  rw [hreq, hbody]
  unfold MakeRequest
  simp only [List.any, hjson, hpay, List.foldl, SuperAgent.SendString, hparse, hurl, hempty]
  simp [hjson2, Values.pairs, (Values_three (utf8 username) (utf8 password)).2.2,
    SuperAgent.content, Values.Encode, joinAmp, hk1, hk2, hk3, hg]
  rfl

/-- The query string the agent writes for `GetRRsets` parses to the two
parameters. -/
theorem ParseQuery_limit_offset (offset limit : Int) :
    ParseQuery (utf8 ("limit=" ++ Itoa limit ++ "&offset=" ++ Itoa offset)) =
      ([(utf8 "limit", [utf8 (Itoa limit)]), (utf8 "offset", [utf8 (Itoa offset)])], none) := by
  have hquery : utf8 ("limit=" ++ Itoa limit ++ "&offset=" ++ Itoa offset) =
      (utf8 "limit" ++ 61 :: utf8 (Itoa limit)) ++ 38 :: (utf8 "offset" ++
        61 :: utf8 (Itoa offset)) := by
    rw [utf8_append, utf8_append, utf8_append]
    have e1 : utf8 "limit=" = utf8 "limit" ++ [61] := by decide
    have e2 : utf8 "&offset=" = 38 :: (utf8 "offset" ++ [61]) := by decide
    rw [e1, e2]
    simp
  have hbytes : ∀ i : Int, ∀ c ∈ utf8 (Itoa i), c ≠ 38 ∧ c ≠ 59 ∧ c ≠ 37 ∧ c ≠ 43 := by
    intro i c hc
    have := Itoa_bytes i c hc
    omega
  have hun : ∀ i : Int, QueryUnescape (utf8 (Itoa i)) = some (utf8 (Itoa i)) := fun i =>
    unescape_plain true _ (fun c hc => ⟨(hbytes i c hc).2.2.1, fun _ => (hbytes i c hc).2.2.2⟩)
  have hamp : ∀ (k : Bytes) (i : Int), (∀ c ∈ k, c ≠ 38) →
      ∀ c ∈ k ++ 61 :: utf8 (Itoa i), c ≠ 38 := by
    intro k i hk c hc
    rcases List.mem_append.1 hc with h | h
    · exact hk c h
    · rcases List.mem_cons.1 h with h | h
      · rw [h]; decide
      · exact (hbytes i c h).1
  have hlen : ∃ f, ((utf8 "limit" ++ 61 :: utf8 (Itoa limit)) ++ 38 :: (utf8 "offset" ++
      61 :: utf8 (Itoa offset))).length = f + 2 := by
    refine ⟨(utf8 "limit").length + (utf8 (Itoa limit)).length + (utf8 "offset").length +
      (utf8 (Itoa offset)).length + 1, ?_⟩
    simp
    omega
  obtain ⟨f, hf⟩ := hlen
  have hne2 : (utf8 "offset" = utf8 "limit") = False := by decide
  have hlt2 : bytesLt (utf8 "offset") (utf8 "limit") = false := by decide
  rw [hquery]
  unfold ParseQuery
  rw [hf, parseQuery_piece _ _ _ _ (hamp _ limit (by decide)),
    parseQuery_last _ _ _ (hamp _ offset (by decide)),
    parsePair_pair _ (utf8 "offset") _ (utf8 "offset") _ (by decide)
      (fun c hc => (hbytes offset c hc).2.1) (by decide) (hun offset),
    parsePair_pair _ (utf8 "limit") _ (utf8 "limit") _ (by decide)
      (fun c hc => (hbytes limit c hc).2.1) (by decide) (hun limit)]
  simp [Values.Add, hne2, hlt2]

/-! ## The claims -/

/-- C1: when the exchange completes with status 200 and the body decodes
without error to an `AuthResp` `a`, `Authenticate` returns no error and leaves
the session with `accessToken = a.AccessToken`, `refreshToken =
a.RefreshToken` and `tokenHeader = "Bearer " ++ a.AccessToken` (user name and
password as before). -/
theorem Authenticate_success (End : Request → EndResult) (unmarshal : Unmarshal AuthResp)
    (ud : UltraDns) (username password : String) (a : AuthResp)
    (htransport : (End (AuthenticateRequest username password)).errs = [])
    (hstatus : (End (AuthenticateRequest username password)).resp.StatusCode = 200)
    (hdecode : unmarshal (End (AuthenticateRequest username password)).body {} = (a, none)) :
    Authenticate End unmarshal ud username password =
      (none,
        { userName := ud.userName
          password := ud.password
          accessToken := a.AccessToken
          refreshToken := a.RefreshToken
          tokenHeader := "Bearer " ++ a.AccessToken }) := by
  simp [Authenticate, htransport, hstatus, hdecode]

/-- C1 at a token document served with status 200. -/
theorem Authenticate_success_witness :
    (answer 200 tokenDocument (AuthenticateRequest "user" "secret")).errs = [] ∧
    (answer 200 tokenDocument (AuthenticateRequest "user" "secret")).resp.StatusCode = 200 ∧
    jsonUnmarshal storeAuthResp (answer 200 tokenDocument (AuthenticateRequest "user" "secret")).body {} =
      ({ TokenType := "Bearer", RefreshToken := "r1", AccessToken := "a1", Expires := "3600" },
        none) ∧
    Authenticate (answer 200 tokenDocument) (jsonUnmarshal storeAuthResp) NewSession "user" "secret" =
      (none,
        { userName := ""
          password := ""
          accessToken := "a1"
          refreshToken := "r1"
          tokenHeader := "Bearer a1" }) :=
  ⟨by decide, by decide, by decide,
    Authenticate_success (answer 200 tokenDocument) (jsonUnmarshal storeAuthResp) NewSession
      "user" "secret"
      { TokenType := "Bearer", RefreshToken := "r1", AccessToken := "a1", Expires := "3600" }
      (by decide) (by decide) (by decide)⟩

/-- C2: whenever `Authenticate` returns an error, whichever it is, the session
after the call is the session before it: `userName`, `password`,
`accessToken`, `refreshToken` and `tokenHeader` are unchanged. -/
theorem Authenticate_error_keeps_session (End : Request → EndResult)
    (unmarshal : Unmarshal AuthResp) (ud : UltraDns) (username password : String)
    (herr : (Authenticate End unmarshal ud username password).1 ≠ none) :
    (Authenticate End unmarshal ud username password).2 = ud := by
  unfold Authenticate at herr ⊢
  by_cases h1 : (End (AuthenticateRequest username password)).errs = []
  · by_cases h2 : (End (AuthenticateRequest username password)).resp.StatusCode = 200
    · by_cases h3 : (unmarshal (End (AuthenticateRequest username password)).body {}).2 = none
      · simp [h1, h2, h3] at herr
      · simp [h1, h2, h3]
    · simp [h1, h2]
  · simp [h1]

/-- C2 at a rejected login on a session that holds tokens. -/
theorem Authenticate_error_keeps_session_witness :
    (Authenticate (answer 401 "Unauthorized") (jsonUnmarshal storeAuthResp)
        { userName := "", password := "", accessToken := "a0", refreshToken := "r0",
          tokenHeader := "Bearer a0" } "user" "wrong").1 ≠ none ∧
    (Authenticate (answer 401 "Unauthorized") (jsonUnmarshal storeAuthResp)
        { userName := "", password := "", accessToken := "a0", refreshToken := "r0",
          tokenHeader := "Bearer a0" } "user" "wrong").2 =
      { userName := "", password := "", accessToken := "a0", refreshToken := "r0",
        tokenHeader := "Bearer a0" } :=
  ⟨by decide,
    Authenticate_error_keeps_session (answer 401 "Unauthorized") (jsonUnmarshal storeAuthResp)
      _ "user" "wrong" (by decide)⟩

/-- C3: on a fresh session against a server that answers the empty
`Authorization` value with status 401, the exchange completes and none of the
three authorized operations reads the status: each decodes the error document
like a listing and returns an empty result with no error, not
"Authentication Failed". -/
theorem authorized_calls_ignore_status :
    (rejectEmptyAuth "" (GetAccountDetailsRequest NewSession)).resp.StatusCode = 401 ∧
    GetAccountDetails (rejectEmptyAuth "") (jsonUnmarshal storeAccountsRes) NewSession =
      ([], none) ∧
    GetAllZones (rejectEmptyAuth "") (jsonUnmarshal storeZonesRes) NewSession = ([], none) ∧
    GetRRsets (rejectEmptyAuth "") (jsonUnmarshal storeRRsetsRes) NewSession "example.com" 0 10 =
      ([], { Total := 0, OffSet := 0, RetCount := 0 }, none) := by
  refine ⟨by decide, by decide, by decide, by decide⟩

/-- C4 (as stated, refuted): at status 401 `Authenticate` returns
"Something Bad Happened", which is not the error it returns when the
transport fails. -/
theorem Authenticate_status_401_differs :
    (Authenticate (answer 401 "") (jsonUnmarshal storeAuthResp) NewSession "user" "wrong").1 =
      some "Something Bad Happened" ∧
    (Authenticate connectionRefused (jsonUnmarshal storeAuthResp) NewSession "user" "wrong").1 =
      some "Authentication Failed" ∧
    (Authenticate (answer 401 "") (jsonUnmarshal storeAuthResp) NewSession "user" "wrong").1 ≠
      (Authenticate connectionRefused (jsonUnmarshal storeAuthResp) NewSession "user" "wrong").1 := by
  refine ⟨by decide, by decide, by decide⟩

/-- C4 (amended): `Authenticate` returns "Authentication Failed" exactly when
the transport call errors, "Something Bad Happened" when the exchange
completes with a status other than 200, "Unmarshal Error" when the status is
200 and the body does not decode, and no error otherwise; the three errors
are pairwise different. -/
theorem Authenticate_error_kinds (End : Request → EndResult) (unmarshal : Unmarshal AuthResp)
    (ud : UltraDns) (username password : String) :
    ((End (AuthenticateRequest username password)).errs ≠ [] →
      (Authenticate End unmarshal ud username password).1 = some "Authentication Failed") ∧
    ((End (AuthenticateRequest username password)).errs = [] →
      (End (AuthenticateRequest username password)).resp.StatusCode ≠ 200 →
      (Authenticate End unmarshal ud username password).1 = some "Something Bad Happened") ∧
    ((End (AuthenticateRequest username password)).errs = [] →
      (End (AuthenticateRequest username password)).resp.StatusCode = 200 →
      (unmarshal (End (AuthenticateRequest username password)).body {}).2 ≠ none →
      (Authenticate End unmarshal ud username password).1 = some "Unmarshal Error") ∧
    ((End (AuthenticateRequest username password)).errs = [] →
      (End (AuthenticateRequest username password)).resp.StatusCode = 200 →
      (unmarshal (End (AuthenticateRequest username password)).body {}).2 = none →
      (Authenticate End unmarshal ud username password).1 = none) ∧
    (some "Something Bad Happened" : error) ≠ some "Authentication Failed" ∧
    (some "Something Bad Happened" : error) ≠ some "Unmarshal Error" ∧
    (some "Authentication Failed" : error) ≠ some "Unmarshal Error" := by
  refine ⟨?_, ?_, ?_, ?_, by decide, by decide, by decide⟩
  · intro h1
    simp [Authenticate, h1]
  · intro h1 h2
    simp [Authenticate, h1, h2]
  · intro h1 h2 h3
    simp [Authenticate, h1, h2, h3]
  · intro h1 h2 h3
    simp [Authenticate, h1, h2, h3]

/-- C4 (amended) at status 503. -/
theorem Authenticate_error_kinds_witness :
    (answer 503 "" (AuthenticateRequest "user" "secret")).errs = [] ∧
    (answer 503 "" (AuthenticateRequest "user" "secret")).resp.StatusCode ≠ 200 ∧
    (Authenticate (answer 503 "") (jsonUnmarshal storeAuthResp) NewSession "user" "secret").1 =
      some "Something Bad Happened" :=
  ⟨by decide, by decide,
    (Authenticate_error_kinds (answer 503 "") (jsonUnmarshal storeAuthResp) NewSession
      "user" "secret").2.1 (by decide) (by decide)⟩

/-- C5: for each operation, when the transport call succeeds (and, for
`Authenticate`, the status is 200) and the body fails to decode, the
operation returns "Unmarshal Error"; when the transport call fails it returns
"Authentication Failed", a different error. -/
theorem decode_failure_is_Unmarshal_Error (End : Request → EndResult) (ud : UltraDns)
    (uAuth : Unmarshal AuthResp) (uVer : Unmarshal VerInfo) (uAcc : Unmarshal AccountsRes)
    (uZones : Unmarshal ZonesRes) (uRR : Unmarshal RRsetsRes)
    (username password zName : String) (offset limit : Int) :
    ((End (AuthenticateRequest username password)).errs = [] →
      (End (AuthenticateRequest username password)).resp.StatusCode = 200 →
      (uAuth (End (AuthenticateRequest username password)).body {}).2 ≠ none →
      (Authenticate End uAuth ud username password).1 = some "Unmarshal Error") ∧
    ((End GetVersionRequest).errs = [] →
      (uVer (End GetVersionRequest).body {}).2 ≠ none →
      (GetVersion End uVer ud).2 = some "Unmarshal Error") ∧
    ((End (GetAccountDetailsRequest ud)).errs = [] →
      (uAcc (End (GetAccountDetailsRequest ud)).body {}).2 ≠ none →
      (GetAccountDetails End uAcc ud).2 = some "Unmarshal Error") ∧
    ((End (GetAllZonesRequest ud)).errs = [] →
      (uZones (End (GetAllZonesRequest ud)).body {}).2 ≠ none →
      (GetAllZones End uZones ud).2 = some "Unmarshal Error") ∧
    ((End (GetRRsetsRequest ud zName offset limit)).errs = [] →
      (uRR (End (GetRRsetsRequest ud zName offset limit)).body {}).2 ≠ none →
      (GetRRsets End uRR ud zName offset limit).2.2 = some "Unmarshal Error") ∧
    ((End (AuthenticateRequest username password)).errs ≠ [] →
      (Authenticate End uAuth ud username password).1 = some "Authentication Failed") ∧
    ((End GetVersionRequest).errs ≠ [] →
      (GetVersion End uVer ud).2 = some "Authentication Failed") ∧
    ((End (GetAccountDetailsRequest ud)).errs ≠ [] →
      (GetAccountDetails End uAcc ud).2 = some "Authentication Failed") ∧
    ((End (GetAllZonesRequest ud)).errs ≠ [] →
      (GetAllZones End uZones ud).2 = some "Authentication Failed") ∧
    ((End (GetRRsetsRequest ud zName offset limit)).errs ≠ [] →
      (GetRRsets End uRR ud zName offset limit).2.2 = some "Authentication Failed") ∧
    (some "Unmarshal Error" : error) ≠ some "Authentication Failed" := by
  refine ⟨?_, ?_, ?_, ?_, ?_, ?_, ?_, ?_, ?_, ?_, by decide⟩
  · intro h1 h2 h3
    simp [Authenticate, h1, h2, h3]
  · intro h1 h3
    simp [GetVersion, h1, h3]
  · intro h1 h3
    simp [GetAccountDetails, h1, h3]
  · intro h1 h3
    simp [GetAllZones, h1, h3]
  · intro h1 h3
    simp [GetRRsets, h1, h3]
  · intro h1
    simp [Authenticate, h1]
  · intro h1
    simp [GetVersion, h1]
  · intro h1
    simp [GetAccountDetails, h1]
  · intro h1
    simp [GetAllZones, h1]
  · intro h1
    simp [GetRRsets, h1]

/-- C5 at a body that is not JSON. -/
theorem decode_failure_is_Unmarshal_Error_witness :
    (answer 200 "<html>" (AuthenticateRequest "user" "secret")).errs = [] ∧
    (answer 200 "<html>" (AuthenticateRequest "user" "secret")).resp.StatusCode = 200 ∧
    (jsonUnmarshal storeAuthResp
      (answer 200 "<html>" (AuthenticateRequest "user" "secret")).body {}).2 ≠ none ∧
    (Authenticate (answer 200 "<html>") (jsonUnmarshal storeAuthResp) NewSession
      "user" "secret").1 = some "Unmarshal Error" ∧
    (GetVersion (answer 200 "<html>") (jsonUnmarshal storeVerInfo) NewSession).2 =
      some "Unmarshal Error" :=
  ⟨by decide, by decide, by decide,
    (decode_failure_is_Unmarshal_Error (answer 200 "<html>") NewSession
      (jsonUnmarshal storeAuthResp) (jsonUnmarshal storeVerInfo)
      (jsonUnmarshal storeAccountsRes) (jsonUnmarshal storeZonesRes)
      (jsonUnmarshal storeRRsetsRes) "user" "secret" "example.com" 0 10).1
      (by decide) (by decide) (by decide),
    (decode_failure_is_Unmarshal_Error (answer 200 "<html>") NewSession
      (jsonUnmarshal storeAuthResp) (jsonUnmarshal storeVerInfo)
      (jsonUnmarshal storeAccountsRes) (jsonUnmarshal storeZonesRes)
      (jsonUnmarshal storeRRsetsRes) "user" "secret" "example.com" 0 10).2.1
      (by decide) (by decide)⟩

/-- C6 (as stated, refuted): for the zone name `example.com?x=1` the request
`GetRRsets` issues goes to the path `/v1/zones/example.com` and carries three
query parameters, `limit`, `offset` and `x`; a zone name with `#` cuts the
path short, and for one with a malformed `%` escape or a control character
no request is issued at all. -/
theorem GetRRsets_request_zone_name_query :
    MakeRequest (GetRRsetsRequest NewSession "example.com?x=1" 0 10) =
      .ok { Method := "GET"
            URL := { Scheme := utf8 "https"
                     Host := utf8 "restapi.ultradns.com"
                     Path := utf8 "/v1/zones/example.com"
                     RawQuery := utf8 "limit=10&offset=0&x=1%2Frrsets"
                     Fragment := [] }
            Header := [("Authorization", "")]
            Body := [] } ∧
    ParseQuery (utf8 "limit=10&offset=0&x=1%2Frrsets") =
      ([(utf8 "limit", [utf8 "10"]), (utf8 "offset", [utf8 "0"]), (utf8 "x", [utf8 "1/rrsets"])],
        none) ∧
    GetRRsets echoServer (jsonUnmarshal storeRRsetsRes) NewSession "example.com?x=1" 0 10 =
      ([{ RecName := "/v1/zones/example.com?limit=10&offset=0&x=1%2Frrsets ", RType := "",
          TTL := 0, RRecords := [] }],
        { Total := 0, OffSet := 0, RetCount := 0 }, none) ∧
    MakeRequest (GetRRsetsRequest NewSession "a#b" 0 10) =
      .ok { Method := "GET"
            URL := { Scheme := utf8 "https"
                     Host := utf8 "restapi.ultradns.com"
                     Path := utf8 "/v1/zones/a"
                     RawQuery := utf8 "limit=10&offset=0"
                     Fragment := utf8 "b/rrsets" }
            Header := [("Authorization", "")]
            Body := [] } ∧
    MakeRequest (GetRRsetsRequest NewSession "a%zz" 0 10) = .err "invalid URL escape" ∧
    MakeRequest (GetRRsetsRequest NewSession "a\nb" 0 10) =
      .err "net/url: invalid control character in URL" := by
  refine ⟨by decide, by decide, by decide, by decide, by decide, by decide⟩

/-- C6 (amended): for every zone name without `?`, `#` and control characters
whose `%` escapes are well formed, and all integers offset and limit,
`GetRRsets` ends one request, on whose outcome alone its result depends, and
the agent makes of it a GET of `https://restapi.ultradns.com/v1/zones/` ++
zName ++ `/rrsets` (the escapes of the zone name read as the bytes they stand
for) whose query string `limit=…&offset=…` carries exactly the two parameters
offset and limit, each with the decimal rendering of its argument, with the
`Authorization` header set to the session's `tokenHeader`; a rendering of a
64-bit integer reads back as the integer. -/
theorem GetRRsets_request (End : Request → EndResult) (unmarshal : Unmarshal RRsetsRes)
    (ud : UltraDns) (zName : String) (offset limit : Int) (zb : Bytes)
    (hz : ∀ c ∈ zName.data, c ≠ '?' ∧ c ≠ '#' ∧ 0x20 ≤ c.toNat ∧ c.toNat ≠ 0x7F)
    (hesc : unescape false (utf8 zName) = some zb) :
    ((End (GetRRsetsRequest ud zName offset limit)).errs ≠ [] →
      GetRRsets End unmarshal ud zName offset limit =
        ([], { Total := 0, OffSet := 0, RetCount := 0 }, some "Authentication Failed")) ∧
    ((End (GetRRsetsRequest ud zName offset limit)).errs = [] →
      (GetRRsets End unmarshal ud zName offset limit).1 =
        (unmarshal (End (GetRRsetsRequest ud zName offset limit)).body {}).1.RRSets ∧
      (GetRRsets End unmarshal ud zName offset limit).2.1 =
        (unmarshal (End (GetRRsetsRequest ud zName offset limit)).body {}).1.RInfo) ∧
    MakeRequest (GetRRsetsRequest ud zName offset limit) =
      .ok { Method := "GET"
            URL := { Scheme := utf8 "https"
                     Host := utf8 "restapi.ultradns.com"
                     Path := utf8 "/v1/zones/" ++ zb ++ utf8 "/rrsets"
                     RawQuery := utf8 ("limit=" ++ Itoa limit ++ "&offset=" ++ Itoa offset)
                     Fragment := [] }
            Header := [("Authorization", ud.tokenHeader)]
            Body := [] } ∧
    ParseQuery (utf8 ("limit=" ++ Itoa limit ++ "&offset=" ++ Itoa offset)) =
      ([(utf8 "limit", [utf8 (Itoa limit)]), (utf8 "offset", [utf8 (Itoa offset)])], none) ∧
    (-(2 ^ 63 : Int) ≤ offset → offset < (2 ^ 63 : Int) →
      parseInt64 (Itoa offset).data = some offset) ∧
    (-(2 ^ 63 : Int) ≤ limit → limit < (2 ^ 63 : Int) →
      parseInt64 (Itoa limit).data = some limit) := by
  refine ⟨?_, ?_, MakeRequest_GetRRsetsRequest ud zName offset limit zb hz hesc,
    ParseQuery_limit_offset offset limit, parseInt64_Itoa offset, parseInt64_Itoa limit⟩
  · intro h1
    simp [GetRRsets, h1]
  · intro h1
    unfold GetRRsets
    by_cases h3 : (unmarshal (End (GetRRsetsRequest ud zName offset limit)).body {}).2 = none <;>
      simp [h1, h3]

/-- C6 (amended) at the zone `example.com`, offset 10 and limit 10, behind a
server that repeats the request. -/
theorem GetRRsets_request_witness :
    (∀ c ∈ "example.com".data, c ≠ '?' ∧ c ≠ '#' ∧ 0x20 ≤ c.toNat ∧ c.toNat ≠ 0x7F) ∧
    unescape false (utf8 "example.com") = some (utf8 "example.com") ∧
    MakeRequest (GetRRsetsRequest NewSession "example.com" 10 10) =
      .ok { Method := "GET"
            URL := { Scheme := utf8 "https"
                     Host := utf8 "restapi.ultradns.com"
                     Path := utf8 "/v1/zones/example.com/rrsets"
                     RawQuery := utf8 "limit=10&offset=10"
                     Fragment := [] }
            Header := [("Authorization", "")]
            Body := [] } ∧
    GetRRsets echoServer (jsonUnmarshal storeRRsetsRes) NewSession "example.com" 10 10 =
      ([{ RecName := "/v1/zones/example.com/rrsets?limit=10&offset=10 ", RType := "", TTL := 0,
          RRecords := [] }],
        { Total := 0, OffSet := 0, RetCount := 0 }, none) :=
  ⟨by decide, by decide,
    (GetRRsets_request echoServer (jsonUnmarshal storeRRsetsRes) NewSession "example.com" 10 10
      (utf8 "example.com") (by decide) (by decide)).2.2.1,
    by decide⟩

/-- C7 (as stated, refuted): in the session `NewSession` returns, reached by
the empty sequence of calls, the header the authorized operations send is
empty, not "Bearer " ++ accessToken. -/
theorem NewSession_header_not_Bearer :
    (GetAccountDetailsRequest (runAuthenticate NewSession []).2).Header =
      [("Authorization", "")] ∧
    (runAuthenticate NewSession []).2.tokenHeader ≠
      "Bearer " ++ (runAuthenticate NewSession []).2.accessToken := by
  refine ⟨by decide, by decide⟩

/-- C7 (amended): in the session reached from `NewSession` by any sequence
of `Authenticate` calls, the three authorized operations send `tokenHeader`
as the `Authorization` value; it equals "Bearer " ++ accessToken once a call
of the sequence has succeeded, and until then it is empty, like the access
token. -/
theorem Authorization_header_after_run (calls : List AuthCall) (zName : String)
    (offset limit : Int) :
    (GetAccountDetailsRequest (runAuthenticate NewSession calls).2).Header =
      [("Authorization", (runAuthenticate NewSession calls).2.tokenHeader)] ∧
    (GetAllZonesRequest (runAuthenticate NewSession calls).2).Header =
      [("Authorization", (runAuthenticate NewSession calls).2.tokenHeader)] ∧
    (GetRRsetsRequest (runAuthenticate NewSession calls).2 zName offset limit).Header =
      [("Authorization", (runAuthenticate NewSession calls).2.tokenHeader)] ∧
    (none ∈ (runAuthenticate NewSession calls).1 →
      (runAuthenticate NewSession calls).2.tokenHeader =
        "Bearer " ++ (runAuthenticate NewSession calls).2.accessToken) ∧
    (none ∉ (runAuthenticate NewSession calls).1 →
      (runAuthenticate NewSession calls).2.tokenHeader = "" ∧
      (runAuthenticate NewSession calls).2.accessToken = "") := by
  refine ⟨rfl, rfl, rfl, ?_, ?_⟩
  · intro h
    exact (runAuthenticate_inv calls NewSession).1 (Or.inl h)
  · intro h
    rw [(runAuthenticate_inv calls NewSession).2 h]
    exact ⟨rfl, rfl⟩

/-- C7 (amended) on a run of a rejected login, a successful one and a
transport failure. -/
theorem Authorization_header_after_run_witness :
    none ∈ (runAuthenticate NewSession
      [{ username := "user", password := "wrong", End := answer 401 "",
         unmarshal := jsonUnmarshal storeAuthResp },
       { username := "user", password := "secret", End := answer 200 tokenDocument,
         unmarshal := jsonUnmarshal storeAuthResp },
       { username := "user", password := "secret", End := connectionRefused,
         unmarshal := jsonUnmarshal storeAuthResp }]).1 ∧
    (runAuthenticate NewSession
      [{ username := "user", password := "wrong", End := answer 401 "",
         unmarshal := jsonUnmarshal storeAuthResp },
       { username := "user", password := "secret", End := answer 200 tokenDocument,
         unmarshal := jsonUnmarshal storeAuthResp },
       { username := "user", password := "secret", End := connectionRefused,
         unmarshal := jsonUnmarshal storeAuthResp }]).2.tokenHeader =
      "Bearer " ++ (runAuthenticate NewSession
        [{ username := "user", password := "wrong", End := answer 401 "",
           unmarshal := jsonUnmarshal storeAuthResp },
         { username := "user", password := "secret", End := answer 200 tokenDocument,
           unmarshal := jsonUnmarshal storeAuthResp },
         { username := "user", password := "secret", End := connectionRefused,
           unmarshal := jsonUnmarshal storeAuthResp }]).2.accessToken :=
  ⟨by decide,
    (Authorization_header_after_run
      [{ username := "user", password := "wrong", End := answer 401 "",
         unmarshal := jsonUnmarshal storeAuthResp },
       { username := "user", password := "secret", End := answer 200 tokenDocument,
         unmarshal := jsonUnmarshal storeAuthResp },
       { username := "user", password := "secret", End := connectionRefused,
         unmarshal := jsonUnmarshal storeAuthResp }] "example.com" 0 10).2.2.2.1 (by decide)⟩

/-- C8 (as stated, refuted): a response announcing ten returned records next
to an empty `rrSets` array decodes without error, and `GetRRsets` returns
`RetCount = 10` with a list of no entries. -/
theorem GetRRsets_RetCount_exceeds_list :
    GetRRsets
        (answer 200 "\x7b\"resultInfo\":\x7b\"totalCount\":25,\"offset\":0,\"returnedCount\":10\x7d,\"rrSets\":[]\x7d")
        (jsonUnmarshal storeRRsetsRes) NewSession "example.com" 0 10 =
      ([], { Total := 25, OffSet := 0, RetCount := 10 }, none) ∧
    ¬ ((10 : Int) ≤ (([] : List RRSet).length : Int)) := by
  refine ⟨by decide, by decide⟩

/-- C8 (amended): a successful `GetRRsets` call returns the `rrSets` list and
the `resultInfo` exactly as decoded from the body, unchecked; so `RetCount`
is at most the number of returned entries exactly when that holds of the
decoded response. -/
theorem GetRRsets_returns_decoded (End : Request → EndResult) (unmarshal : Unmarshal RRsetsRes)
    (ud : UltraDns) (zName : String) (offset limit : Int)
    (hok : (GetRRsets End unmarshal ud zName offset limit).2.2 = none) :
    (GetRRsets End unmarshal ud zName offset limit).1 =
      (unmarshal (End (GetRRsetsRequest ud zName offset limit)).body {}).1.RRSets ∧
    (GetRRsets End unmarshal ud zName offset limit).2.1 =
      (unmarshal (End (GetRRsetsRequest ud zName offset limit)).body {}).1.RInfo ∧
    ((GetRRsets End unmarshal ud zName offset limit).2.1.RetCount ≤
        ((GetRRsets End unmarshal ud zName offset limit).1.length : Int) ↔
      (unmarshal (End (GetRRsetsRequest ud zName offset limit)).body {}).1.RInfo.RetCount ≤
        ((unmarshal (End (GetRRsetsRequest ud zName offset limit)).body {}).1.RRSets.length :
          Int)) := by
  unfold GetRRsets at hok ⊢
  by_cases h1 : (End (GetRRsetsRequest ud zName offset limit)).errs = []
  · by_cases h3 : (unmarshal (End (GetRRsetsRequest ud zName offset limit)).body {}).2 = none
    · simp [h1, h3]
    · simp [h1, h3] at hok
  · simp [h1] at hok

/-- C8 (amended) at a page of one record set. -/
theorem GetRRsets_returns_decoded_witness :
    (GetRRsets (answer 200 rrsetsPage) (jsonUnmarshal storeRRsetsRes) NewSession
      "example.com" 0 1).2.2 = none ∧
    (GetRRsets (answer 200 rrsetsPage) (jsonUnmarshal storeRRsetsRes) NewSession
      "example.com" 0 1).1 = (jsonUnmarshal storeRRsetsRes rrsetsPage {}).1.RRSets ∧
    (GetRRsets (answer 200 rrsetsPage) (jsonUnmarshal storeRRsetsRes) NewSession
      "example.com" 0 1).2.1 = { Total := 25, OffSet := 0, RetCount := 1 } :=
  ⟨by decide,
    (GetRRsets_returns_decoded (answer 200 rrsetsPage) (jsonUnmarshal storeRRsetsRes)
      NewSession "example.com" 0 1 (by decide)).1,
    by decide⟩

/-- C9 (as stated, refuted): on a body with a valid `rrSets` array next to a
`totalCount` of the wrong JSON type, `GetRRsets` returns "Unmarshal Error"
together with the decoded entry, not an empty list. -/
theorem GetRRsets_error_with_entries :
    GetRRsets
        (answer 200 "\x7b\"rrSets\":[\x7b\"ownerName\":\"www.example.com.\",\"rrtype\":\"A (1)\",\"ttl\":300,\"rdata\":[\"192.0.2.1\"]\x7d],\"resultInfo\":\x7b\"totalCount\":\"25\"\x7d\x7d")
        (jsonUnmarshal storeRRsetsRes) NewSession "example.com" 0 10 =
      ([{ RecName := "www.example.com.", RType := "A (1)", TTL := 300,
          RRecords := ["192.0.2.1"] }],
        { Total := 0, OffSet := 0, RetCount := 0 }, some "Unmarshal Error") := by
  decide

/-- C9 (amended): next to the transport error `GetVersion`,
`GetAccountDetails`, `GetAllZones` and `GetRRsets` return zero values; next
to the decode error they return the fields of the decode target as the
decoder left them. -/
theorem values_returned_with_error (End : Request → EndResult) (ud : UltraDns)
    (uVer : Unmarshal VerInfo) (uAcc : Unmarshal AccountsRes)
    (uZones : Unmarshal ZonesRes) (uRR : Unmarshal RRsetsRes)
    (zName : String) (offset limit : Int) :
    ((GetVersion End uVer ud).2 = some "Authentication Failed" →
      (GetVersion End uVer ud).1 = { Ver := "" }) ∧
    ((GetAccountDetails End uAcc ud).2 = some "Authentication Failed" →
      (GetAccountDetails End uAcc ud).1 = []) ∧
    ((GetAllZones End uZones ud).2 = some "Authentication Failed" →
      (GetAllZones End uZones ud).1 = []) ∧
    ((GetRRsets End uRR ud zName offset limit).2.2 = some "Authentication Failed" →
      (GetRRsets End uRR ud zName offset limit).1 = [] ∧
      (GetRRsets End uRR ud zName offset limit).2.1 =
        { Total := 0, OffSet := 0, RetCount := 0 }) ∧
    ((GetVersion End uVer ud).2 = some "Unmarshal Error" →
      (GetVersion End uVer ud).1 = (uVer (End GetVersionRequest).body {}).1) ∧
    ((GetAccountDetails End uAcc ud).2 = some "Unmarshal Error" →
      (GetAccountDetails End uAcc ud).1 =
        (uAcc (End (GetAccountDetailsRequest ud)).body {}).1.Accounts) ∧
    ((GetAllZones End uZones ud).2 = some "Unmarshal Error" →
      (GetAllZones End uZones ud).1 = (uZones (End (GetAllZonesRequest ud)).body {}).1.Zones) ∧
    ((GetRRsets End uRR ud zName offset limit).2.2 = some "Unmarshal Error" →
      (GetRRsets End uRR ud zName offset limit).1 =
        (uRR (End (GetRRsetsRequest ud zName offset limit)).body {}).1.RRSets ∧
      (GetRRsets End uRR ud zName offset limit).2.1 =
        (uRR (End (GetRRsetsRequest ud zName offset limit)).body {}).1.RInfo) := by
  refine ⟨?_, ?_, ?_, ?_, ?_, ?_, ?_, ?_⟩
  · unfold GetVersion
    by_cases h1 : (End GetVersionRequest).errs = []
    · by_cases h3 : (uVer (End GetVersionRequest).body {}).2 = none <;> simp [h1, h3]
    · simp [h1]
  · unfold GetAccountDetails
    by_cases h1 : (End (GetAccountDetailsRequest ud)).errs = []
    · by_cases h3 : (uAcc (End (GetAccountDetailsRequest ud)).body {}).2 = none <;>
        simp [h1, h3]
    · simp [h1]
  · unfold GetAllZones
    by_cases h1 : (End (GetAllZonesRequest ud)).errs = []
    · by_cases h3 : (uZones (End (GetAllZonesRequest ud)).body {}).2 = none <;> simp [h1, h3]
    · simp [h1]
  · unfold GetRRsets
    by_cases h1 : (End (GetRRsetsRequest ud zName offset limit)).errs = []
    · by_cases h3 : (uRR (End (GetRRsetsRequest ud zName offset limit)).body {}).2 = none <;>
        simp [h1, h3]
    · simp [h1]
  · unfold GetVersion
    by_cases h1 : (End GetVersionRequest).errs = []
    · by_cases h3 : (uVer (End GetVersionRequest).body {}).2 = none <;> simp [h1, h3]
    · simp [h1]
  · unfold GetAccountDetails
    by_cases h1 : (End (GetAccountDetailsRequest ud)).errs = []
    · by_cases h3 : (uAcc (End (GetAccountDetailsRequest ud)).body {}).2 = none <;>
        simp [h1, h3]
    · simp [h1]
  · unfold GetAllZones
    by_cases h1 : (End (GetAllZonesRequest ud)).errs = []
    · by_cases h3 : (uZones (End (GetAllZonesRequest ud)).body {}).2 = none <;> simp [h1, h3]
    · simp [h1]
  · unfold GetRRsets
    by_cases h1 : (End (GetRRsetsRequest ud zName offset limit)).errs = []
    · by_cases h3 : (uRR (End (GetRRsetsRequest ud zName offset limit)).body {}).2 = none <;>
        simp [h1, h3]
    · simp [h1]

/-- C9 (amended) on a transport failure and on a body that is not JSON. -/
theorem values_returned_with_error_witness :
    (GetRRsets connectionRefused (jsonUnmarshal storeRRsetsRes) NewSession
      "example.com" 0 10).2.2 = some "Authentication Failed" ∧
    (GetRRsets connectionRefused (jsonUnmarshal storeRRsetsRes) NewSession
      "example.com" 0 10).1 = [] ∧
    (GetAccountDetails (answer 200 "<html>") (jsonUnmarshal storeAccountsRes) NewSession).2 =
      some "Unmarshal Error" ∧
    (GetAccountDetails (answer 200 "<html>") (jsonUnmarshal storeAccountsRes) NewSession).1 =
      (jsonUnmarshal storeAccountsRes "<html>" {}).1.Accounts :=
  ⟨by decide,
    ((values_returned_with_error connectionRefused NewSession (jsonUnmarshal storeVerInfo)
      (jsonUnmarshal storeAccountsRes) (jsonUnmarshal storeZonesRes)
      (jsonUnmarshal storeRRsetsRes) "example.com" 0 10).2.2.2.1 (by decide)).1,
    by decide,
    (values_returned_with_error (answer 200 "<html>") NewSession (jsonUnmarshal storeVerInfo)
      (jsonUnmarshal storeAccountsRes) (jsonUnmarshal storeZonesRes)
      (jsonUnmarshal storeRRsetsRes) "example.com" 0 10).2.2.2.2.2.1 (by decide)⟩

/-- C10 (as stated, refuted): the agent writes the pairs of the body in key
order, `password` before `username`; the user name `a&b` reaches the server
as `a` next to a stray key `b` and the password `p+q` as `p q`; a password
ending in `%`, or a user name with `;`, makes the agent send the payload as
it is, unencoded, as `application/json`. -/
theorem Authenticate_form_body_differs :
    MakeRequest (AuthenticateRequest "alice" "s3cr=t") =
      .ok { Method := "POST"
            URL := { Scheme := utf8 "https"
                     Host := utf8 "restapi.ultradns.com"
                     Path := utf8 "/v1/authorization/token"
                     RawQuery := []
                     Fragment := [] }
            Header := [("Content-Type", "application/x-www-form-urlencoded")]
            Body := utf8 "grant_type=password&password=s3cr%3Dt&username=alice" } ∧
    utf8 "grant_type=password&password=s3cr%3Dt&username=alice" ≠
      utf8 "grant_type=password&username=alice&password=s3cr%3Dt" ∧
    MakeRequest (AuthenticateRequest "a&b" "p+q") =
      .ok { Method := "POST"
            URL := { Scheme := utf8 "https"
                     Host := utf8 "restapi.ultradns.com"
                     Path := utf8 "/v1/authorization/token"
                     RawQuery := []
                     Fragment := [] }
            Header := [("Content-Type", "application/x-www-form-urlencoded")]
            Body := utf8 "b=&grant_type=password&password=p+q&username=a" } ∧
    ParseQuery (utf8 "b=&grant_type=password&password=p+q&username=a") =
      ([(utf8 "b", [[]]), (utf8 "grant_type", [utf8 "password"]), (utf8 "password", [utf8 "p q"]),
        (utf8 "username", [utf8 "a"])], none) ∧
    Authenticate echoServer (jsonUnmarshal storeAuthResp) NewSession "a&b" "p+q" =
      (none,
        { userName := ""
          password := ""
          accessToken := "/v1/authorization/token? b=&grant_type=password&password=p+q&username=a"
          refreshToken := ""
          tokenHeader :=
            "Bearer /v1/authorization/token? b=&grant_type=password&password=p+q&username=a" }) ∧
    MakeRequest (AuthenticateRequest "alice" "50%") =
      .ok { Method := "POST"
            URL := { Scheme := utf8 "https"
                     Host := utf8 "restapi.ultradns.com"
                     Path := utf8 "/v1/authorization/token"
                     RawQuery := []
                     Fragment := [] }
            Header := [("Content-Type", "application/json")]
            Body := utf8 "grant_type=password&username=alice&password=50%" } ∧
    MakeRequest (AuthenticateRequest "a;b" "p") =
      .ok { Method := "POST"
            URL := { Scheme := utf8 "https"
                     Host := utf8 "restapi.ultradns.com"
                     Path := utf8 "/v1/authorization/token"
                     RawQuery := []
                     Fragment := [] }
            Header := [("Content-Type", "application/json")]
            Body := utf8 "grant_type=password&username=a;b&password=p" } := by
  refine ⟨by decide, by decide, by decide, by decide, by decide, by decide, by decide⟩

/-- C10 (amended): for every user name and password without `&`, `;`, `%`
and `+`, `Authenticate` ends one request, on whose outcome its result
depends, and the agent makes of it a POST to the token URL with the form body
`grant_type=password&password=P&username=U`, the pairs in key order and P
and U the percent-encoded password and user name; decoding the body yields
exactly the three pairs grant_type=password, password and username. -/
theorem Authenticate_form_body (End : Request → EndResult) (unmarshal : Unmarshal AuthResp)
    (ud : UltraDns) (username password : String)
    (hu : ∀ c ∈ username.data, c ≠ '&' ∧ c ≠ ';' ∧ c ≠ '%' ∧ c ≠ '+')
    (hp : ∀ c ∈ password.data, c ≠ '&' ∧ c ≠ ';' ∧ c ≠ '%' ∧ c ≠ '+') :
    ((End (AuthenticateRequest username password)).errs ≠ [] →
      Authenticate End unmarshal ud username password = (some "Authentication Failed", ud)) ∧
    ((End (AuthenticateRequest username password)).errs = [] →
      (End (AuthenticateRequest username password)).resp.StatusCode ≠ 200 →
      Authenticate End unmarshal ud username password = (some "Something Bad Happened", ud)) ∧
    MakeRequest (AuthenticateRequest username password) =
      .ok { Method := "POST"
            URL := { Scheme := utf8 "https"
                     Host := utf8 "restapi.ultradns.com"
                     Path := utf8 "/v1/authorization/token"
                     RawQuery := []
                     Fragment := [] }
            Header := [("Content-Type", "application/x-www-form-urlencoded")]
            Body := utf8 "grant_type=password&password=" ++ QueryEscape (utf8 password) ++
              utf8 "&username=" ++ QueryEscape (utf8 username) } ∧
    ParseQuery (utf8 "grant_type=password&password=" ++ QueryEscape (utf8 password) ++
        utf8 "&username=" ++ QueryEscape (utf8 username)) =
      ([(utf8 "grant_type", [utf8 "password"]), (utf8 "password", [utf8 password]),
        (utf8 "username", [utf8 username])], none) := by
  refine ⟨?_, ?_, MakeRequest_AuthenticateRequest username password hu hp, ?_⟩
  · intro h1
    simp [Authenticate, h1]
  · intro h1 h2
    simp [Authenticate, h1, h2]
  · have hbody : utf8 "grant_type=password&password=" ++ QueryEscape (utf8 password) ++
        utf8 "&username=" ++ QueryEscape (utf8 username) =
        (utf8 "grant_type" ++ 61 :: utf8 "password") ++
          38 :: ((utf8 "password" ++ 61 :: QueryEscape (utf8 password)) ++
            38 :: (utf8 "username" ++ 61 :: QueryEscape (utf8 username))) := by
      have e1 : utf8 "grant_type=password&password=" =
          (utf8 "grant_type" ++ 61 :: utf8 "password") ++ 38 :: (utf8 "password" ++ [61]) := by
        decide
      have e2 : utf8 "&username=" = 38 :: (utf8 "username" ++ [61]) := by decide
      rw [e1, e2]
      simp
    rw [hbody]
    exact ParseQuery_formBody (utf8 username) (utf8 password) (utf8_lt username)
      (utf8_lt password)

/-- C10 (amended) at the user name `alice` and the password `s3cr=t`, behind a
server that repeats the request. -/
theorem Authenticate_form_body_witness :
    (∀ c ∈ "alice".data, c ≠ '&' ∧ c ≠ ';' ∧ c ≠ '%' ∧ c ≠ '+') ∧
    (∀ c ∈ "s3cr=t".data, c ≠ '&' ∧ c ≠ ';' ∧ c ≠ '%' ∧ c ≠ '+') ∧
    ParseQuery (utf8 "grant_type=password&password=s3cr%3Dt&username=alice") =
      ([(utf8 "grant_type", [utf8 "password"]), (utf8 "password", [utf8 "s3cr=t"]),
        (utf8 "username", [utf8 "alice"])], none) ∧
    Authenticate echoServer (jsonUnmarshal storeAuthResp) NewSession "alice" "s3cr=t" =
      (none,
        { userName := ""
          password := ""
          accessToken :=
            "/v1/authorization/token? grant_type=password&password=s3cr%3Dt&username=alice"
          refreshToken := ""
          tokenHeader :=
            "Bearer /v1/authorization/token? grant_type=password&password=s3cr%3Dt&username=alice" }) :=
  ⟨by decide, by decide,
    (Authenticate_form_body echoServer (jsonUnmarshal storeAuthResp) NewSession "alice" "s3cr=t"
      (by decide) (by decide)).2.2.2,
    by decide⟩

end ultradns
